import Mathlib

/-!
# Verification development for the chat server

Shallow embedding of `server.cjs` (the REST endpoints on messages, contacts,
blocks and the public status, the socket.io handlers, and the stored name of
an upload) and of `script.js` (the sorting step of `displayMessages` and the
call functions).

Modelling conventions.

* A JSON file of the store is `none` when it cannot be read or parsed (the
  `catch` branch of the `read*` functions) and `some c` when it holds the
  collection `c`.
* A JavaScript object used as a dictionary is the list of its own entries in
  `Object.entries` order (array-index keys first, ascending, then the other
  keys in insertion order). Its prototype is `Object.prototype`: the read
  `o[k]` is `objRead`, which yields the inherited member when `k` names one
  and `o` has no own entry for it; `objGet` is the lookup among own entries.
* `new Date().toISOString()` is a number of milliseconds, `uuidv4()` a string;
  both are supplied by the environment of a handler run, as is the outcome of
  each `fs.writeFile` (a failed write throws and leaves the file as it was).
* A handler returns the state it leaves behind together with the list of
  socket events it emitted, in emission order.
-/

/-! ## Data model -/

abbrev UserId := String

abbrev SocketId := String

abbrev Timestamp := Nat

/-- An opaque JSON value handed through by the server (SDP offer, ICE candidate). -/
abbrev Json := String

/-- A plain JavaScript object used as a dictionary from string keys. -/
abbrev JsObject (V : Type) := List (String × V)

/-- Lookup among the own entries: the value of `o[k]` when `Object.hasOwn(o, k)`, and
`none` when `o` has no own entry for `k`. -/
def objGet {V : Type} (o : JsObject V) (k : String) : Option V :=
  (o.find? (fun e => e.1 == k)).map (fun e => e.2)

/-- Names of the properties that every plain object inherits from `Object.prototype`. -/
def inheritedNames : List String :=
  ["constructor", "__proto__", "hasOwnProperty", "isPrototypeOf", "propertyIsEnumerable",
   "toLocaleString", "toString", "valueOf", "__defineGetter__", "__defineSetter__",
   "__lookupGetter__", "__lookupSetter__"]

/-- Result of the property read `o[k]`: the value of an own entry; or, for a key with no own
entry that names a member of `Object.prototype`, that member (a function, or the prototype
object for `__proto__`: truthy, and with none of the methods of arrays and strings); or
`undefined`. -/
inductive JsProp (V : Type) where
  | value (v : V)
  | inherited (name : String)
  | undefined
deriving DecidableEq, Repr

/-- Property read `o[k]`. -/
def objRead {V : Type} (o : JsObject V) (k : String) : JsProp V :=
  match objGet o k with
  | some v => .value v
  | none => if inheritedNames.contains k then .inherited k else .undefined

/-- Value of the decimal digits `cs`. -/
def digitsValue (cs : List Char) : Nat :=
  cs.foldl (fun n c => 10 * n + (c.toNat - 48)) 0

/-- The array index that the key `k` denotes: `k` is the canonical decimal form of a number
below `2^32 - 1`. Such keys are enumerated first, in ascending order. -/
def arrayIndex (k : String) : Option Nat :=
  let cs := k.toList
  if !cs.isEmpty && cs.all (fun c => decide (48 ≤ c.toNat) && decide (c.toNat ≤ 57))
      && (cs.length == 1 || !(cs.head? == some '0')) && decide (digitsValue cs < 4294967295)
  then some (digitsValue cs) else none

/-- Replacement of the value of the own entry `k`, which keeps its place. -/
def objReplace {V : Type} : JsObject V → String → V → JsObject V
  | [], _, _ => []
  | e :: rest, k, v => if e.1 = k then (k, v) :: rest else e :: objReplace rest k v

/-- Place of a new array-index key `k` of index `n`: after the array-index keys below `n`. -/
def objInsertIndex {V : Type} : JsObject V → Nat → String → V → JsObject V
  | [], _, k, v => [(k, v)]
  | e :: rest, n, k, v =>
    match arrayIndex e.1 with
    | some m => if m < n then e :: objInsertIndex rest n k v else (k, v) :: e :: rest
    | none => (k, v) :: e :: rest

/-- Property write `o[k] = v`. An own entry keeps its place and takes the value. Without an
own entry, the key `__proto__` reaches the accessor inherited from `Object.prototype`,
which creates no entry (a string, the only value the handlers ever write there, is
ignored); an array-index key is placed among the array-index keys; any other key goes
last. -/
def objSet {V : Type} (o : JsObject V) (k : String) (v : V) : JsObject V :=
  if (objGet o k).isSome then objReplace o k v
  else if k == "__proto__" then o
  else
    match arrayIndex k with
    | some n => objInsertIndex o n k v
    | none => o ++ [(k, v)]

/-- Property removal `delete o[k]`. -/
def objDelete {V : Type} (o : JsObject V) (k : String) : JsObject V :=
  o.filter (fun e => !(e.1 == k))

/-- The keys of a JavaScript object are pairwise distinct. -/
def ObjWF {V : Type} (o : JsObject V) : Prop :=
  (o.map (fun e => e.1)).Nodup

/-- Truthiness of a string-or-undefined value, as tested by `if (x)`. -/
def truthy : Option String → Bool
  | some s => !(s == "")
  | none => false

structure Visibility where
  onlineStatus : Option String
  lastSeen : Option String
  profileInfo : Option String
  avatar : Option String
deriving DecidableEq, Repr

structure Profile where
  bio : String
  phone : String
  location : String
  website : String
  visibility : Option Visibility
deriving DecidableEq, Repr

structure User where
  id : UserId
  username : String
  email : String
  password : String
  avatar : String
  status : String
  lastSeen : Timestamp
  createdAt : Timestamp
  profile : Option Profile
deriving DecidableEq, Repr

structure FileDescriptor where
  url : String
  apiUrl : String
  downloadUrl : String
  type : String
  name : String
  size : Nat
  mimetype : String
  folder : String
  duration : Option Nat
deriving DecidableEq, Repr

structure Message where
  id : String
  senderId : UserId
  receiverId : UserId
  content : String
  type : String
  file : Option FileDescriptor
  timestamp : Timestamp
  delivered : Bool
  read : Bool
  isDeleted : Bool
  isEdited : Bool
  deletedAt : Option Timestamp
  editedAt : Option Timestamp
  readAt : Option Timestamp
deriving DecidableEq, Repr

/-- The four JSON files: users.json, contacts.json, messages.json, blocked.json. -/
structure Store where
  users : Option (List User)
  contacts : Option (JsObject (List UserId))
  messages : Option (List Message)
  blocked : Option (JsObject (List UserId))
deriving DecidableEq, Repr

/-- What a handler run takes from outside: uuid, clock and write outcomes. -/
structure Env where
  uuid : String
  now : Timestamp
  writeUsersOk : Bool
  writeContactsOk : Bool
  writeMessagesOk : Bool
  writeBlockedOk : Bool
deriving DecidableEq, Repr

/-- Server process state: the store and the in-memory `userSocketMap`. -/
structure ServerState where
  store : Store
  userSocketMap : JsObject SocketId
deriving DecidableEq, Repr

/-- Addressee of an emitted event: `socket.emit` and `io.to(id).emit` reach the connection
`id`, `io.emit` everyone, `socket.broadcast.emit` everyone but the emitting connection, and
`socket.to(room).emit` the members of `room` but the emitting connection (a connection
handle names the room that holds just that connection). `io.to(v).emit` with `v` the member
of `Object.prototype` named `name` addresses a room that no connection is in. -/
inductive Target where
  | socket (id : SocketId)
  | all
  | allExcept (id : SocketId)
  | roomExcept (room : String) (sender : SocketId)
  | inheritedValue (name : String)
deriving DecidableEq, Repr

/-- The room addressed by `io.to(v)` under the test `if (v)`, for a value `v` read from
`userSocketMap`; `none` when `v` is falsy. -/
def roomOf : JsProp SocketId → Option Target
  | .value h => if h == "" then none else some (.socket h)
  | .inherited name => some (.inheritedValue name)
  | .undefined => none

/-- Emitted events with their payloads. -/
inductive Payload where
  | messageBlocked (receiverId : UserId) (message : String)
  | receiveMessage (msg : Message) (tempId : Option String)
  | contactsUpdated (userId : UserId)
  | messageDeleted (messageId : String)
  | messageEdited (messageId : String) (content : String) (editedAt : Timestamp)
  | messageReadUpdate (messageId : String)
  | userStatusChanged (userId : UserId) (status : String)
  | userTyping (senderId : Option UserId) (isTyping : Bool)
  | offer (offer : Json) (fromSocket : SocketId) (roomId : Option String)
  | answer (answer : Json) (fromSocket : SocketId)
  | iceCandidate (candidate : Json) (fromSocket : SocketId)
  | incomingCall (fromSocket : SocketId) (fromUserId : UserId) (callType : String)
      (callerName : String)
  | callAccepted (fromSocket : SocketId)
  | callRejected
  | callEnded
deriving DecidableEq, Repr

/-- Event name under which a payload is emitted. -/
def Payload.event : Payload → String
  | .messageBlocked _ _ => "message-blocked"
  | .receiveMessage _ _ => "receive-message"
  | .contactsUpdated _ => "contacts-updated"
  | .messageDeleted _ => "message-deleted"
  | .messageEdited _ _ _ => "message-edited"
  | .messageReadUpdate _ => "message-read-update"
  | .userStatusChanged _ _ => "user-status-changed"
  | .userTyping _ _ => "user-typing"
  | .offer _ _ _ => "offer"
  | .answer _ _ => "answer"
  | .iceCandidate _ _ => "ice-candidate"
  | .incomingCall _ _ _ _ => "incoming-call"
  | .callAccepted _ => "call-accepted"
  | .callRejected => "call-rejected"
  | .callEnded => "call-ended"

structure Emit where
  target : Target
  payload : Payload
deriving DecidableEq, Repr

/-- Body of a REST answer. In `{ error: error.message }` the message of a caught exception
is written by its kind: `TypeError` for a call of a missing method, `write failed` for a
rejected `fs.writeFile`. -/
inductive ResponseBody where
  | error (error : String)
  | success (message : String)
  | messages (messages : List Message)
  | edited (message : String) (updatedMessage : Message)
  | publicStatus (status : String) (lastSeen : Option Timestamp)
deriving DecidableEq, Repr

structure Response where
  status : Nat
  body : ResponseBody
deriving DecidableEq, Repr

/-! ## Storage functions -/

def readUsers (s : Store) : List User := s.users.getD []

def readContacts (s : Store) : JsObject (List UserId) := s.contacts.getD []

def readMessages (s : Store) : List Message := s.messages.getD []

def readBlocked (s : Store) : JsObject (List UserId) := s.blocked.getD []

/-- Result `none` stands for the exception of a failed `fs.writeFile`. -/
def writeUsers (env : Env) (s : Store) (users : List User) : Option Store :=
  if env.writeUsersOk then some { s with users := some users } else none

def writeContacts (env : Env) (s : Store) (contacts : JsObject (List UserId)) : Option Store :=
  if env.writeContactsOk then some { s with contacts := some contacts } else none

def writeMessages (env : Env) (s : Store) (messages : List Message) : Option Store :=
  if env.writeMessagesOk then some { s with messages := some messages } else none

def writeBlocked (env : Env) (s : Store) (blocked : JsObject (List UserId)) : Option Store :=
  if env.writeBlockedOk then some { s with blocked := some blocked } else none

/-! ## Helper functions of the server -/

/-- The array held by the own entry `k`, empty when `o` has no own entry for `k`; the
statements use it to say who is listed under whom. -/
def objList (o : JsObject (List UserId)) (k : String) : List UserId :=
  (objGet o k).getD []

/-- The two statements `if (!o[k]) o[k] = []; if (!o[k].includes(x)) o[k].push(x);`.
Result `none` stands for the TypeError raised when `o[k]` is an inherited member, which is
truthy and has no `includes`. -/
def objPush (o : JsObject (List UserId)) (k : String) (x : UserId) :
    Option (JsObject (List UserId)) :=
  let o1 := match objRead o k with
    | .undefined => objSet o k []
    | _ => o
  match objRead o1 k with
  | .value l => some (if !l.contains x then objSet o1 k (l ++ [x]) else o1)
  | _ => none

/-- Function `addContact(userId, contactId)`: the store it leaves and its boolean result.
The `catch` block answers false for a TypeError and for a failed write alike. -/
def addContact (env : Env) (s : Store) (userId contactId : UserId) : Store × Bool :=
  match (objPush (readContacts s) userId contactId).bind
      (fun c2 => objPush c2 contactId userId) with
  | none => (s, false)
  | some c4 =>
    match writeContacts env s c4 with
    | some s' => (s', true)
    | none => (s, false)

/-- Function `isUserBlocked(userId, targetUserId)`: does `userId` block `targetUserId`.
On an inherited member `?.includes` is not a function; the `catch` block answers false. -/
def isUserBlocked (s : Store) (userId targetUserId : UserId) : Bool :=
  match objRead (readBlocked s) userId with
  | .value l => l.contains targetUserId
  | .inherited _ => false
  | .undefined => false

/-! ## Socket handler `send-message` -/

structure SendMessageData where
  senderId : UserId
  receiverId : UserId
  content : String
  type : Option String
  tempId : Option String
  file : Option FileDescriptor
deriving DecidableEq, Repr

/-- The record `newMessage` built by the `send-message` handler. -/
def newMessage (env : Env) (data : SendMessageData) : Message :=
  { id := env.uuid
    senderId := data.senderId
    receiverId := data.receiverId
    content := data.content
    type := data.type.getD "text"
    file := data.file
    timestamp := env.now
    delivered := true
    read := false
    isDeleted := false
    isEdited := false
    deletedAt := none
    editedAt := none
    readAt := none }

/-- Handler `socket.on('send-message')` run on connection `socket`. -/
def sendMessage (env : Env) (st : ServerState) (socket : SocketId) (data : SendMessageData) :
    ServerState × List Emit :=
  if isUserBlocked st.store data.receiverId data.senderId then
    (st, [⟨.socket socket, .messageBlocked data.receiverId "You are blocked by this user"⟩])
  else
    let s1 := (addContact env st.store data.senderId data.receiverId).1
    let msg := newMessage env data
    match writeMessages env s1 (readMessages s1 ++ [msg]) with
    | none => ({ st with store := s1 }, [])
    | some s2 =>
      let receiverSocketId := objRead st.userSocketMap data.receiverId
      ({ st with store := s2 },
        [⟨.socket socket, .receiveMessage msg data.tempId⟩]
        ++ (match roomOf receiverSocketId with
            | some room => [⟨room, .receiveMessage msg none⟩]
            | none => [])
        ++ [⟨.socket socket, .contactsUpdated data.senderId⟩]
        ++ (match roomOf receiverSocketId with
            | some room => [⟨room, .contactsUpdated data.receiverId⟩]
            | none => []))

/-! ## REST endpoints on messages -/

/-- The filter callback of `GET /api/messages`. -/
def inConversation (userId1 userId2 : UserId) (msg : Message) : Bool :=
  !msg.isDeleted &&
    ((msg.senderId == userId1 && msg.receiverId == userId2) ||
     (msg.senderId == userId2 && msg.receiverId == userId1))

/-- The array `filteredMessages` of `GET /api/messages`. -/
def filteredMessages (s : Store) (userId1 userId2 : UserId) : List Message :=
  (readMessages s).filter (inConversation userId1 userId2)

/-- Endpoint `GET /api/messages?userId1=..&userId2=..`. -/
def apiGetMessages (s : Store) (userId1 userId2 : UserId) : Response :=
  ⟨200, .messages (filteredMessages s userId1 userId2)⟩

/-- In-place update of the first element satisfying `p`, the object returned by `find`. -/
def modifyFirst {α : Type} (p : α → Bool) (f : α → α) : List α → List α
  | [] => []
  | a :: l => if p a then f a :: l else a :: modifyFirst p f l

/-- Assignments `message.isDeleted = true; message.deletedAt = now`. -/
def markDeleted (now : Timestamp) (m : Message) : Message :=
  { m with isDeleted := true, deletedAt := some now }

/-- Assignments `message.content = content; message.isEdited = true; message.editedAt = now`. -/
def markEdited (now : Timestamp) (content : String) (m : Message) : Message :=
  { m with content := content, isEdited := true, editedAt := some now }

/-- Endpoint `PUT /api/messages/:id/delete` with body `{ userId }`. -/
def apiDeleteMessage (env : Env) (s : Store) (id : String) (userId : UserId) : Store × Response :=
  match (readMessages s).find? (fun m => m.id == id) with
  | none => (s, ⟨404, .error "Message not found"⟩)
  | some message =>
    if message.senderId != userId then
      (s, ⟨403, .error "You can only delete your own messages"⟩)
    else
      match writeMessages env s
          (modifyFirst (fun m => m.id == id) (markDeleted env.now) (readMessages s)) with
      | none => (s, ⟨500, .error "write failed"⟩)
      | some s' => (s', ⟨200, .success "Message deleted successfully"⟩)

/-- Endpoint `PUT /api/messages/:id/edit` with body `{ userId, content }`. -/
def apiEditMessage (env : Env) (s : Store) (id : String) (userId : UserId) (content : String) :
    Store × Response :=
  match (readMessages s).find? (fun m => m.id == id) with
  | none => (s, ⟨404, .error "Message not found"⟩)
  | some message =>
    if message.senderId != userId then
      (s, ⟨403, .error "You can only edit your own messages"⟩)
    else
      match writeMessages env s
          (modifyFirst (fun m => m.id == id) (markEdited env.now content) (readMessages s)) with
      | none => (s, ⟨500, .error "write failed"⟩)
      | some s' => (s', ⟨200, .edited "Message edited successfully" (markEdited env.now content message)⟩)

/-! ## Socket handlers `delete-message` and `edit-message` -/

/-- Handler `socket.on('delete-message')` with data `{ messageId, userId }`. -/
def deleteMessage (env : Env) (st : ServerState) (messageId : String) (userId : UserId) :
    ServerState × List Emit :=
  match (readMessages st.store).find? (fun m => m.id == messageId) with
  | none => (st, [])
  | some message =>
    if message.senderId != userId then (st, [])
    else
      match writeMessages env st.store
          (modifyFirst (fun m => m.id == messageId) (markDeleted env.now) (readMessages st.store)) with
      | none => (st, [])
      | some s' => ({ st with store := s' }, [⟨.all, .messageDeleted messageId⟩])

/-- Handler `socket.on('edit-message')` with data `{ messageId, userId, content }`. -/
def editMessage (env : Env) (st : ServerState) (messageId : String) (userId : UserId)
    (content : String) : ServerState × List Emit :=
  match (readMessages st.store).find? (fun m => m.id == messageId) with
  | none => (st, [])
  | some message =>
    if message.senderId != userId then (st, [])
    else
      match writeMessages env st.store
          (modifyFirst (fun m => m.id == messageId) (markEdited env.now content)
            (readMessages st.store)) with
      | none => (st, [])
      | some s' => ({ st with store := s' }, [⟨.all, .messageEdited messageId content env.now⟩])

/-! ## Presence: handlers `user-online` and `disconnect` -/

/-- Assignments `user.status = status; user.lastSeen = now`. -/
def setStatus (status : String) (now : Timestamp) (u : User) : User :=
  { u with status := status, lastSeen := now }

/-- Handler `socket.on('user-online')` run on connection `socket` with argument `userId`. -/
def userOnline (env : Env) (st : ServerState) (socket : SocketId) (userId : UserId) :
    ServerState × List Emit :=
  let map1 := objSet st.userSocketMap userId socket
  match (readUsers st.store).find? (fun u => u.id == userId) with
  | none => ({ st with userSocketMap := map1 }, [])
  | some user =>
    match writeUsers env st.store
        (modifyFirst (fun u => u.id == userId) (setStatus "online" env.now) (readUsers st.store)) with
    | none => ({ st with userSocketMap := map1 }, [])
    | some s' => (⟨s', map1⟩, [⟨.all, .userStatusChanged user.id "online"⟩])

/-- Handler `socket.on('disconnect')` run on connection `socket`: the loop stops at the
first entry of `userSocketMap` holding this handle. -/
def disconnect (env : Env) (st : ServerState) (socket : SocketId) : ServerState × List Emit :=
  match st.userSocketMap.find? (fun e => e.2 == socket) with
  | none => (st, [])
  | some (userId, _) =>
    let map1 := objDelete st.userSocketMap userId
    match (readUsers st.store).find? (fun u => u.id == userId) with
    | none => ({ st with userSocketMap := map1 }, [])
    | some _ =>
      match writeUsers env st.store
          (modifyFirst (fun u => u.id == userId) (setStatus "offline" env.now)
            (readUsers st.store)) with
      | none => ({ st with userSocketMap := map1 }, [])
      | some s' => (⟨s', map1⟩, [⟨.all, .userStatusChanged userId "offline"⟩])

/-! ## Client: the sorting step of `displayMessages` -/

/-- The call `messages.sort((a, b) => new Date(a.timestamp) - new Date(b.timestamp))`,
a stable sort by timestamp. -/
def displayMessagesOrder (messages : List Message) : List Message :=
  messages.insertionSort (fun a b => a.timestamp ≤ b.timestamp)

/-! ## Predicates used in the statements -/

/-- Timestamps ascend along the list. -/
def TimestampAscending (l : List Message) : Prop :=
  l.Pairwise (fun a b => a.timestamp ≤ b.timestamp)

/-- Message ids are pairwise distinct (ids are server-assigned uuids). -/
def UniqueIds (l : List Message) : Prop :=
  (l.map (fun m => m.id)).Nodup

/-- Every handle held by the presence table is a socket.io id, a non-empty string. -/
def HandlesNonEmpty (o : JsObject SocketId) : Prop :=
  ∀ e ∈ o, e.2 ≠ ""

/-- User `userId` lists `contactId` in the contacts collection. -/
def lists (s : Store) (userId contactId : UserId) : Prop :=
  contactId ∈ objList (readContacts s) userId

/-- The read `o[k]` yields a member inherited from `Object.prototype`: `k` names one and
`o` has no own entry for it. -/
def readsInherited {V : Type} (o : JsObject V) (k : String) : Bool :=
  (objGet o k).isNone && inheritedNames.contains k

instance decObjWF {V : Type} (o : JsObject V) : Decidable (ObjWF o) := by
  unfold ObjWF; infer_instance

instance decTimestampAscending (l : List Message) : Decidable (TimestampAscending l) := by
  unfold TimestampAscending; infer_instance

instance decUniqueIds (l : List Message) : Decidable (UniqueIds l) := by
  unfold UniqueIds; infer_instance

instance decHandlesNonEmpty (o : JsObject SocketId) : Decidable (HandlesNonEmpty o) := by
  unfold HandlesNonEmpty; infer_instance

instance decLists (s : Store) (userId contactId : UserId) :
    Decidable (lists s userId contactId) := by
  unfold lists; infer_instance

/-! ## Sample data -/

def exUser (id : UserId) (status : String) : User :=
  { id := id, username := id, email := id ++ "@example.org", password := "x", avatar := "",
    status := status, lastSeen := 100, createdAt := 50, profile := none }

def exMessage (id : String) (senderId receiverId : UserId) (content : String)
    (timestamp : Timestamp) (isDeleted : Bool) : Message :=
  { id := id, senderId := senderId, receiverId := receiverId, content := content, type := "text",
    file := none, timestamp := timestamp, delivered := true, read := false,
    isDeleted := isDeleted, isEdited := false,
    deletedAt := if isDeleted then some timestamp else none, editedAt := none, readAt := none }

/-- Users alice, bob and carol; carol blocks alice; one stored message from alice to bob. -/
def exStore : Store :=
  { users := some [exUser "alice" "online", exUser "bob" "online", exUser "carol" "offline"]
    contacts := some [("alice", ["dave"])]
    messages := some [exMessage "m1" "alice" "bob" "hello" 1000 false]
    blocked := some [("carol", ["alice"])] }

/-- Only bob is present, on connection `sock-b`. -/
def exState : ServerState :=
  { store := exStore, userSocketMap := [("bob", "sock-b")] }

def exEnv : Env :=
  { uuid := "m2", now := 2000, writeUsersOk := true, writeContactsOk := true,
    writeMessagesOk := true, writeBlockedOk := true }

def exSend (receiverId : UserId) : SendMessageData :=
  { senderId := "alice", receiverId := receiverId, content := "hi", type := some "text",
    tempId := some "tmp-1", file := none }

/-- Environment in which writing messages.json fails. -/
def exEnvFail : Env :=
  { uuid := "m2", now := 2000, writeUsersOk := true, writeContactsOk := true,
    writeMessagesOk := false, writeBlockedOk := true }

/-- Environment in which writing contacts.json fails and every other write succeeds. -/
def exEnvContactsFail : Env :=
  { uuid := "m2", now := 2000, writeUsersOk := true, writeContactsOk := false,
    writeMessagesOk := true, writeBlockedOk := true }

/-- Store with no file written yet and nobody connected. -/
def exEmptyState : ServerState :=
  { store := { users := none, contacts := none, messages := none, blocked := none },
    userSocketMap := [] }

/-- Environment of a run whose clock reads `now` and whose uuid is `uuid`. -/
def exEnvAt (uuid : String) (now : Timestamp) : Env :=
  { uuid := uuid, now := now, writeUsersOk := true, writeContactsOk := true,
    writeMessagesOk := true, writeBlockedOk := true }

/-- Two sends from alice to bob, the second under a clock that was set back. -/
def exClockSetBack : ServerState :=
  (sendMessage (exEnvAt "m2" 3) (sendMessage (exEnvAt "m1" 5) exEmptyState "sock-a"
    (exSend "bob")).1 "sock-a" (exSend "bob")).1

/-- A stored history in timestamp order: three live messages between alice and bob, one
between alice and carol, and a deleted one. -/
def exHistoryStore : Store :=
  { exStore with
    messages := some [exMessage "m1" "alice" "bob" "hello" 1000 false,
      exMessage "m2" "bob" "alice" "hi" 1100 false,
      exMessage "m3" "alice" "carol" "news" 1200 false,
      exMessage "m4" "alice" "bob" "oops" 1300 true,
      exMessage "m5" "alice" "bob" "bye" 1400 false] }

/-- Connection old-h registers alice and then carol; alice registers again on new-h. -/
def exReconnected : ServerState :=
  (userOnline exEnv (userOnline exEnv (userOnline exEnv exState "old-h" "alice").1
    "old-h" "carol").1 "new-h" "alice").1

/-! ## Socket handler `message-read` -/

/-- Assignments `message.read = true; message.readAt = now`. -/
def markRead (now : Timestamp) (m : Message) : Message :=
  { m with read := true, readAt := some now }

/-- Handler `socket.on('message-read')` run on connection `socket` with argument `messageId`. -/
def messageRead (env : Env) (st : ServerState) (socket : SocketId) (messageId : String) :
    ServerState × List Emit :=
  match (readMessages st.store).find? (fun m => m.id == messageId) with
  | none => (st, [])
  | some _ =>
    match writeMessages env st.store
        (modifyFirst (fun m => m.id == messageId) (markRead env.now) (readMessages st.store)) with
    | none => (st, [])
    | some s' => ({ st with store := s' }, [⟨.allExcept socket, .messageReadUpdate messageId⟩])

/-! ## Socket handler `typing` -/

/-- The connection object `socket` as far as the handlers read it: its `id` and its
property `userId`. -/
structure Socket where
  id : SocketId
  userId : Option UserId
deriving DecidableEq, Repr

/-- The connection object handed to the `io.on('connection')` callback. No statement of
server.cjs assigns `socket.userId`, so the property is undefined on every connection, also
after `user-online`, which records the user in `userSocketMap` only. -/
def newSocket (id : SocketId) : Socket :=
  { id := id, userId := none }

structure TypingData where
  receiverId : UserId
  isTyping : Bool
deriving DecidableEq, Repr

/-- Handler `socket.on('typing')` run on the connection object `socket`. -/
def typing (st : ServerState) (socket : Socket) (data : TypingData) : ServerState × List Emit :=
  let receiverSocketId := objRead st.userSocketMap data.receiverId
  match roomOf receiverSocketId with
  | some room => (st, [⟨room, .userTyping socket.userId data.isTyping⟩])
  | none => (st, [])

/-! ## Socket handlers `offer`, `answer` and `ice-candidate`

The field `to` of the event data is written `toId`, and the field `from` of the forwarded
payload `fromSocket`. -/

structure OfferData where
  toId : String
  offer : Json
  roomId : Option String
deriving DecidableEq, Repr

structure AnswerData where
  toId : String
  answer : Json
deriving DecidableEq, Repr

structure IceCandidateData where
  toId : String
  candidate : Json
deriving DecidableEq, Repr

/-- Handler `socket.on('offer')` run on connection `socket`. -/
def offer (st : ServerState) (socket : SocketId) (data : OfferData) : ServerState × List Emit :=
  (st, [⟨.roomExcept data.toId socket, .offer data.offer socket data.roomId⟩])

/-- Handler `socket.on('answer')` run on connection `socket`. -/
def answer (st : ServerState) (socket : SocketId) (data : AnswerData) : ServerState × List Emit :=
  (st, [⟨.roomExcept data.toId socket, .answer data.answer socket⟩])

/-- Handler `socket.on('ice-candidate')` run on connection `socket`. -/
def iceCandidate (st : ServerState) (socket : SocketId) (data : IceCandidateData) :
    ServerState × List Emit :=
  (st, [⟨.roomExcept data.toId socket, .iceCandidate data.candidate socket⟩])

/-! ## REST endpoints on contacts and blocks -/

/-- Endpoint `POST /api/contacts/add` with body `{ userId, contactId }`. -/
def apiAddContact (env : Env) (s : Store) (userId contactId : UserId) : Store × Response :=
  match addContact env s userId contactId with
  | (s', true) => (s', ⟨200, .success "Contact added successfully"⟩)
  | (s', false) => (s', ⟨500, .error "Failed to add contact"⟩)

/-- Statement `if (o[k]) o[k] = o[k].filter(id => id !== x)`. Result `none` stands for the
TypeError raised when `o[k]` is an inherited member, which is truthy and has no `filter`. -/
def objFilterOut (o : JsObject (List UserId)) (k : String) (x : UserId) :
    Option (JsObject (List UserId)) :=
  match objRead o k with
  | .value l => some (objSet o k (l.filter (fun id => id != x)))
  | .inherited _ => none
  | .undefined => some o

/-- Endpoint `POST /api/contacts/remove` with body `{ userId, contactId }`. -/
def apiRemoveContact (env : Env) (s : Store) (userId contactId : UserId) : Store × Response :=
  match (objFilterOut (readContacts s) userId contactId).bind
      (fun c1 => objFilterOut c1 contactId userId) with
  | none => (s, ⟨500, .error "TypeError"⟩)
  | some c2 =>
    match writeContacts env s c2 with
    | none => (s, ⟨500, .error "write failed"⟩)
    | some s' => (s', ⟨200, .success "Contact removed successfully"⟩)

/-- Endpoint `POST /api/block` with body `{ userId, blockUserId }`. -/
def apiBlock (env : Env) (s : Store) (userId blockUserId : UserId) : Store × Response :=
  match objPush (readBlocked s) userId blockUserId with
  | none => (s, ⟨500, .error "TypeError"⟩)
  | some b2 =>
    match writeBlocked env s b2 with
    | none => (s, ⟨500, .error "write failed"⟩)
    | some s1 =>
      match objFilterOut (readContacts s1) userId blockUserId with
      | none => (s1, ⟨500, .error "TypeError"⟩)
      | some c1 =>
        match writeContacts env s1 c1 with
        | none => (s1, ⟨500, .error "write failed"⟩)
        | some s2 => (s2, ⟨200, .success "User blocked successfully"⟩)

/-! ## Predicates on the contacts collection -/

/-- Whenever `X` lists `Y`, `Y` lists `X`; over all pairs this is the same as the
equivalence in both directions. -/
def SymmetricContacts (c : JsObject (List UserId)) : Prop :=
  ∀ X Y, Y ∈ objList c X → X ∈ objList c Y

/-- No user is listed in their own contact list. -/
def NoSelfEdges (c : JsObject (List UserId)) : Prop :=
  ∀ X, X ∉ objList c X

/-! ## Further sample data -/

/-- A stored message of alice to bob, deleted at time 1500. -/
def exDeletedState : ServerState :=
  { store := { exStore with
      messages := some [exMessage "m1" "alice" "bob" "hello" 1000 false,
        exMessage "m3" "alice" "bob" "bye" 1500 true] },
    userSocketMap := [("bob", "sock-b")] }

/-- Alice and bob list each other. -/
def exSymmetricStore : Store :=
  { exStore with contacts := some [("alice", ["bob"]), ("bob", ["alice"])] }

/-- Alice registers on connection sock-a while bob is present on sock-b. -/
def exAliceOnline : ServerState :=
  (userOnline exEnv exState "sock-a" "alice").1

/-! ## Replacing one stored record -/

/-- The list `l` with the record `M` replaced by `N` and every other record kept in place. -/
def replaced (l : List Message) (M N : Message) : List Message :=
  l.map (fun m => if m = M then N else m)

/-- A send-message request of alice addressed to herself. -/
def exSelfSend : SendMessageData :=
  { senderId := "alice", receiverId := "alice", content := "note", type := none,
    tempId := none, file := none }

/-! ## Socket handlers `start-call`, `accept-call`, `reject-call` and `end-call` -/

structure StartCallData where
  receiverId : UserId
  callType : String
  fromUserId : UserId
  callerName : String
deriving DecidableEq, Repr

/-- Handler `socket.on('start-call')` run on connection `socket`. -/
def onStartCall (st : ServerState) (socket : SocketId) (data : StartCallData) :
    ServerState × List Emit :=
  let receiverSocketId := objRead st.userSocketMap data.receiverId
  match roomOf receiverSocketId with
  | some room =>
    (st, [⟨room, .incomingCall socket data.fromUserId data.callType data.callerName⟩])
  | none => (st, [])

/-- Handler `socket.on('accept-call')` run on connection `socket` with data `{ to }`. -/
def onAcceptCall (st : ServerState) (socket : SocketId) (toId : UserId) :
    ServerState × List Emit :=
  let receiverSocketId := objRead st.userSocketMap toId
  match roomOf receiverSocketId with
  | some room => (st, [⟨room, .callAccepted socket⟩])
  | none => (st, [])

/-- Handler `socket.on('reject-call')` with data `{ to }`. -/
def onRejectCall (st : ServerState) (toId : UserId) : ServerState × List Emit :=
  let receiverSocketId := objRead st.userSocketMap toId
  match roomOf receiverSocketId with
  | some room => (st, [⟨room, .callRejected⟩])
  | none => (st, [])

/-- Handler `socket.on('end-call')` with data `{ to }`. -/
def onEndCall (st : ServerState) (toId : UserId) : ServerState × List Emit :=
  let receiverSocketId := objRead st.userSocketMap toId
  match roomOf receiverSocketId with
  | some room => (st, [⟨room, .callEnded⟩])
  | none => (st, [])

/-! ## Client: the call functions of `script.js`

The page elements the functions look up (`call-modal`, `call-title`, `call-status`,
`local-video`, `remote-video`, the video button) are taken to exist. The texts shown to the
user are named, not spelled out. `navigator.mediaDevices.getUserMedia` either yields a
stream or rejects, as the environment of the run decides. The field `with` of `currentCall`
is written `withUser`. -/

/-- A stream returned by `getUserMedia(constraints)`, with the constraints it was asked for. -/
structure MediaStream where
  withSound : Bool
  withVideo : Bool
deriving DecidableEq, Repr

/-- The call `navigator.mediaDevices.getUserMedia({ audio: true, video })`; `none` stands
for a rejected promise. -/
def getUserMedia (mediaOk : Bool) (video : Bool) : Option MediaStream :=
  if mediaOk then some { withSound := true, withVideo := video } else none

/-- The object `currentCall`. -/
structure CurrentCall where
  type : String
  withUser : UserId
  status : String
  callerSocket : Option SocketId
  localStream : Option MediaStream
deriving DecidableEq, Repr

/-- A user object on the client: `currentUser`, `selectedUser`, a rendered contact item. -/
structure ClientUser where
  id : UserId
  username : String
  avatar : Option String
  status : Option String
deriving DecidableEq, Repr

/-- The messages passed to `showNotification`, in the order of their first use in the call
functions: choose a contact first, a call is already going on, calling, starting the call
failed, call connected, accepting the call failed, call rejected, call ended. -/
inductive Notice where
  | chooseContact
  | alreadyInCall
  | calling
  | startFailed
  | connected
  | acceptFailed
  | rejected
  | ended
deriving DecidableEq, Repr

/-- Content of the element `call-status`: the two texts of `showCallModal`, the prompt with
the accept and reject buttons written by `handleIncomingCall`, and the later texts. -/
inductive CallStatusText where
  | empty
  | callingText
  | incomingText
  | incomingPrompt (callType : String) (callerName : String)
  | connectedText
  | rejectedText
  | endedText
deriving DecidableEq, Repr

/-- Content of the element `call-title` written by `showCallModal`. -/
structure CallTitle where
  video : Bool
  isCaller : Bool
  username : Option String
deriving DecidableEq, Repr

/-- The globals of `script.js` that the call functions use, and the page elements they
write. -/
structure ClientState where
  currentUser : ClientUser
  selectedUser : Option ClientUser
  contactItems : List ClientUser
  currentCall : Option CurrentCall
  localStream : Option MediaStream
  remoteStream : Option MediaStream
  callModalVisible : Bool
  callTitle : Option CallTitle
  callStatus : CallStatusText
  videoButtonVisible : Bool
  localVideo : Option MediaStream
  localVideoVisible : Bool
  remoteVideo : Option MediaStream
  remoteVideoVisible : Bool
  notifications : List Notice
deriving DecidableEq, Repr

/-- Events the client emits to the server from the call functions. -/
inductive ClientEmit where
  | startCall (data : StartCallData)
  | acceptCall (toId : UserId)
  | rejectCall (toId : UserId)
  | endCall (toId : UserId)
deriving DecidableEq, Repr

/-- Event name under which a client event is emitted. -/
def ClientEmit.event : ClientEmit → String
  | .startCall _ => "start-call"
  | .acceptCall _ => "accept-call"
  | .rejectCall _ => "reject-call"
  | .endCall _ => "end-call"

/-- The server handler that `socket.on` registers for a client event arriving on
connection `socket`. -/
def serverOn (st : ServerState) (socket : SocketId) : ClientEmit → ServerState × List Emit
  | .startCall data => onStartCall st socket data
  | .acceptCall toId => onAcceptCall st socket toId
  | .rejectCall toId => onRejectCall st toId
  | .endCall toId => onEndCall st toId

/-- Function `showNotification(message, type)`. -/
def showNotification (cs : ClientState) (n : Notice) : ClientState :=
  { cs with notifications := cs.notifications ++ [n] }

/-- Function `showCallModal(callType, isCaller)`. -/
def showCallModal (cs : ClientState) (callType : String) (isCaller : Bool) : ClientState :=
  { cs with
    callModalVisible := true
    callTitle := some { video := callType == "video", isCaller := isCaller,
                        username := cs.selectedUser.map (fun u => u.username) }
    callStatus := if isCaller then .callingText else .incomingText
    videoButtonVisible := callType == "video" }

/-- Function `getContactById(userId)`, reading the rendered contact items. -/
def getContactById (cs : ClientState) (userId : UserId) : Option ClientUser :=
  cs.contactItems.find? (fun item => item.id == userId)

/-- Function `endCall()`. -/
def endCall (cs : ClientState) : ClientState × List ClientEmit :=
  let r : ClientState × List ClientEmit :=
    match cs.currentCall with
    | some c =>
      ({ cs with localStream := none, remoteStream := none, currentCall := none },
        if c.status == "active" || c.status == "calling" then [.endCall c.withUser] else [])
    | none => (cs, [])
  ({ r.1 with
      callModalVisible := false
      localVideo := none
      localVideoVisible := false
      remoteVideo := none
      remoteVideoVisible := false }, r.2)

/-- Function `startCall(userId, callType, event)`. -/
def startCall (mediaOk : Bool) (cs : ClientState) (userId : Option UserId) (callType : String) :
    ClientState × List ClientEmit :=
  if !truthy userId then (showNotification cs .chooseContact, [])
  else if cs.currentCall.isSome then (showNotification cs .alreadyInCall, [])
  else
    match getUserMedia mediaOk (callType == "video") with
    | none => (showNotification cs .startFailed, [])
    | some stream =>
      let cs1 := showCallModal { cs with localStream := some stream } callType true
      let call : CurrentCall :=
        { type := callType, withUser := userId.getD "", status := "calling",
          callerSocket := none, localStream := some stream }
      let cs2 := { cs1 with currentCall := some call }
      let cs3 := if callType == "video"
        then { cs2 with localVideo := some stream, localVideoVisible := true } else cs2
      (showNotification cs3 .calling,
        [.startCall { receiverId := userId.getD "", callType := callType,
                      fromUserId := cs.currentUser.id, callerName := cs.currentUser.username }])

structure IncomingCallData where
  fromSocket : SocketId
  fromUserId : UserId
  callType : String
  callerName : String
deriving DecidableEq, Repr

/-- Function `handleIncomingCall(data)`, the listener of `incoming-call`. -/
def handleIncomingCall (cs : ClientState) (data : IncomingCallData) :
    ClientState × List ClientEmit :=
  if cs.currentCall.isSome then (cs, [.rejectCall data.fromUserId])
  else
    let user := getContactById cs data.fromUserId
    let cs1 := { cs with selectedUser := some (user.getD
      { id := data.fromUserId, username := data.callerName, avatar := none, status := none }) }
    let cs2 := showCallModal cs1 data.callType false
    let call : CurrentCall :=
      { type := data.callType, withUser := data.fromUserId, status := "incoming",
        callerSocket := some data.fromSocket, localStream := none }
    let cs3 := { cs2 with currentCall := some call }
    ({ cs3 with callStatus := .incomingPrompt data.callType data.callerName }, [])

/-- Function `acceptCall()`. -/
def acceptCall (mediaOk : Bool) (cs : ClientState) : ClientState × List ClientEmit :=
  match cs.currentCall with
  | none => (cs, [])
  | some c =>
    match getUserMedia mediaOk (c.type == "video") with
    | none => endCall (showNotification cs .acceptFailed)
    | some stream =>
      let cs1 := { cs with
        localStream := some stream
        currentCall := some { c with status := "active", localStream := some stream }
        callStatus := .connectedText }
      let cs2 := if c.type == "video"
        then { cs1 with localVideo := some stream, localVideoVisible := true } else cs1
      (showNotification cs2 .connected, [.acceptCall c.withUser])

/-- Function `rejectCall()`. -/
def rejectCall (cs : ClientState) : ClientState × List ClientEmit :=
  match cs.currentCall with
  | none => (cs, [])
  | some c =>
    let r := endCall cs
    (showNotification r.1 .rejected, [.rejectCall c.withUser] ++ r.2)

/-- Function `handleCallAccepted(data)`, the listener of `call-accepted`. -/
def handleCallAccepted (cs : ClientState) : ClientState :=
  match cs.currentCall with
  | none => cs
  | some c =>
    showNotification { cs with
      currentCall := some { c with status := "active" }
      callStatus := .connectedText } .connected

/-- The call states the client ever assigns to `currentCall.status`. -/
def NonTerminal (status : String) : Prop :=
  status = "calling" ∨ status = "incoming" ∨ status = "active"

instance decNonTerminal (status : String) : Decidable (NonTerminal status) := by
  unfold NonTerminal; infer_instance

/-! ## Sample data for calls -/

def exClientUser (id : UserId) : ClientUser :=
  { id := id, username := id, avatar := none, status := none }

/-- Bob's page with no call going on. -/
def exIdleClient : ClientState :=
  { currentUser := exClientUser "bob", selectedUser := none,
    contactItems := [exClientUser "alice", exClientUser "carol"],
    currentCall := none, localStream := none, remoteStream := none,
    callModalVisible := false, callTitle := none, callStatus := .empty,
    videoButtonVisible := false, localVideo := none, localVideoVisible := false,
    remoteVideo := none, remoteVideoVisible := false, notifications := [] }

/-- The page of user `id` with no call going on. -/
def exIdleClientOf (id : UserId) : ClientState :=
  { exIdleClient with currentUser := exClientUser id }

/-- Bob's page while a call with `withUser` is in the state `status`. -/
def exInCall (withUser : UserId) (status : String) : ClientState :=
  { exIdleClient with
    currentCall := some { type := "video", withUser := withUser, status := status,
                          callerSocket := none, localStream := none },
    callModalVisible := true }

/-- Alice on sock-a, bob on sock-b and carol on sock-c are present. -/
def exThreeOnline : ServerState :=
  { store := exStore,
    userSocketMap := [("alice", "sock-a"), ("bob", "sock-b"), ("carol", "sock-c")] }

/-- Alice's start-call event for a video call to bob. -/
def exStartCall : ClientEmit :=
  .startCall { receiverId := "bob", callType := "video", fromUserId := "alice",
               callerName := "alice" }

/-- Connection sock-x sends user-online for alice and then for bob. -/
def exSharedHandle : ServerState :=
  (userOnline exEnv (userOnline exEnv exEmptyState "sock-x" "alice").1 "sock-x" "bob").1

/-! ## REST endpoint `GET /api/user/:userId/public-status` -/

/-- The expression `user.profile?.visibility || {}`. -/
def visibilityOf (user : User) : Visibility :=
  (user.profile.bind (fun p => p.visibility)).getD
    { onlineStatus := none, lastSeen := none, profileInfo := none, avatar := none }

/-- The expression `o[k]?.includes(x)`: false stands for a falsy result (false or
undefined), `none` for the TypeError raised when `o[k]` is an inherited member. -/
def includesAt (o : JsObject (List UserId)) (k : String) (x : UserId) : Option Bool :=
  match objRead o k with
  | .value l => some (l.contains x)
  | .inherited _ => none
  | .undefined => some false

/-- The value `isContact`, `contacts[currentUserId]?.includes(userId) ||
contacts[userId]?.includes(currentUserId)`: either user lists the other; `none` when
evaluating it throws. -/
def isContact (s : Store) (currentUserId userId : UserId) : Option Bool :=
  match includesAt (readContacts s) currentUserId userId with
  | none => none
  | some true => some true
  | some false => includesAt (readContacts s) userId currentUserId

/-- Endpoint `GET /api/user/:userId/public-status?currentUserId=..`. -/
def apiPublicStatus (s : Store) (userId currentUserId : UserId) : Response :=
  match (readUsers s).find? (fun u => u.id == userId) with
  | none => ⟨200, .publicStatus "unknown" none⟩
  | some user =>
    if currentUserId == userId then ⟨200, .publicStatus user.status (some user.lastSeen)⟩
    else
      let visibility := visibilityOf user
      match isContact s currentUserId userId with
      | none => ⟨500, .error "TypeError"⟩
      | some contact =>
        let status :=
          if visibility.onlineStatus == some "public" then user.status
          else if visibility.onlineStatus == some "contacts" && contact then user.status
          else "unknown"
        let lastSeen :=
          if visibility.lastSeen == some "public" then some user.lastSeen
          else if visibility.lastSeen == some "contacts" && contact then some user.lastSeen
          else none
        ⟨200, .publicStatus status lastSeen⟩

/-- A visibility setting lets a viewer see the value: it is public, or it is contacts and
the viewer is a contact. -/
def reveals (setting : Option String) (contact : Bool) : Bool :=
  setting == some "public" || (setting == some "contacts" && contact)

/-- The record of a user with status and lastSeen blanked when the user is `U`. -/
def maskStatus (U : UserId) (u : User) : User :=
  if u.id == U then { u with status := "", lastSeen := 0 } else u

/-- Two stores differ at most in the status and lastSeen of the user `U`. -/
def SameExceptStatus (U : UserId) (s1 s2 : Store) : Prop :=
  readContacts s1 = readContacts s2 ∧
    (readUsers s1).map (maskStatus U) = (readUsers s2).map (maskStatus U)

instance decSameExceptStatus (U : UserId) (s1 s2 : Store) :
    Decidable (SameExceptStatus U s1 s2) := by
  unfold SameExceptStatus; infer_instance

/-! ## Upload: the stored file name -/

/-- A JavaScript string as the sequence of its UTF-16 code units, the units on which
`replace` with a regular expression without the `u` flag works. -/
abbrev JsString := List Nat

/-- The code units of a string of ASCII characters. -/
def asciiUnits (s : String) : JsString :=
  s.toList.map Char.toNat

/-- Membership in the character class `[a-zA-Z0-9.]`. -/
def isSafeUnit (c : Nat) : Bool :=
  (97 ≤ c && c ≤ 122) || (65 ≤ c && c ≤ 90) || (48 ≤ c && c ≤ 57) || c == 46

/-- The constant `safeName`: `file.originalname.replace(/[^a-zA-Z0-9.]/g, '-')`. -/
def safeName (originalname : JsString) : JsString :=
  originalname.map (fun c => if isSafeUnit c then c else 45)

/-- The constant `uniqueName`: `uuidv4() + '-' + safeName`. -/
def uniqueName (uuid originalname : JsString) : JsString :=
  uuid ++ [45] ++ safeName originalname

/-! ## Sample data for the public status -/

/-- User dana shows her status to contacts only and her last visit to nobody. -/
def exDana (status : String) (lastSeen : Timestamp) : User :=
  { id := "dana", username := "dana", email := "dana@example.org", password := "x", avatar := "",
    status := status, lastSeen := lastSeen, createdAt := 50,
    profile := some { bio := "", phone := "", location := "", website := "",
                      visibility := some { onlineStatus := some "contacts",
                                           lastSeen := some "private",
                                           profileInfo := some "public",
                                           avatar := some "public" } } }

/-- A store holding dana, with alice and bob listing each other and nobody listing dana. -/
def exPrivacyStore (status : String) (lastSeen : Timestamp) : Store :=
  { users := some [exUser "alice" "online", exDana status lastSeen]
    contacts := some [("alice", ["bob"]), ("bob", ["alice"])]
    messages := some []
    blocked := some [] }

/-! ## Lemmas on JavaScript objects and lists -/

theorem objGet_cons {V : Type} (a : String) (b : V) (l : JsObject V) (k : String) :
    objGet ((a, b) :: l) k = if a = k then some b else objGet l k := by
  by_cases h : a = k <;> simp [objGet, List.find?_cons, h]

theorem objGet_nil {V : Type} (k : String) : objGet ([] : JsObject V) k = none := rfl

theorem objGet_objReplace_other {V : Type} (o : JsObject V) (k k2 : String) (v : V)
    (hk : k2 ≠ k) : objGet (objReplace o k v) k2 = objGet o k2 := by
  induction o with
  | nil => rfl
  | cons e rest ih =>
    obtain ⟨a, b⟩ := e
    by_cases h : a = k
    · subst h
      have h2 : ¬ a = k2 := fun h3 => hk h3.symm
      simp [objReplace, objGet_cons, h2]
    · simp only [objReplace, h, if_false, objGet_cons, ih]

theorem objGet_objReplace_same {V : Type} (o : JsObject V) (k : String) (v : V)
    (h : (objGet o k).isSome = true) : objGet (objReplace o k v) k = some v := by
  induction o with
  | nil => simp [objGet_nil] at h
  | cons e rest ih =>
    obtain ⟨a, b⟩ := e
    by_cases ha : a = k
    · simp [objReplace, objGet_cons, ha]
    · simp only [objGet_cons, ha, if_false] at h
      simp only [objReplace, ha, if_false, objGet_cons, ih h]

theorem objGet_objInsertIndex_other {V : Type} (o : JsObject V) (n : Nat) (k k2 : String)
    (v : V) (hk : k2 ≠ k) : objGet (objInsertIndex o n k v) k2 = objGet o k2 := by
  have hk2 : ¬ k = k2 := fun h => hk h.symm
  induction o with
  | nil => simp [objInsertIndex, objGet_cons, hk2]
  | cons e rest ih =>
    obtain ⟨a, b⟩ := e
    simp only [objInsertIndex]
    split
    · split
      · simp only [objGet_cons, ih]
      · simp [objGet_cons, hk2]
    · simp [objGet_cons, hk2]

theorem objGet_objInsertIndex_same {V : Type} (o : JsObject V) (n : Nat) (k : String) (v : V)
    (h : objGet o k = none) : objGet (objInsertIndex o n k v) k = some v := by
  induction o with
  | nil => simp [objInsertIndex, objGet_cons]
  | cons e rest ih =>
    obtain ⟨a, b⟩ := e
    have ha : ¬ a = k := by
      intro hak
      simp [objGet_cons, hak] at h
    have hr : objGet rest k = none := by simpa [objGet_cons, ha] using h
    simp only [objInsertIndex]
    split
    · split
      · simp only [objGet_cons, ha, if_false, ih hr]
      · simp [objGet_cons]
    · simp [objGet_cons]

theorem objGet_append {V : Type} (o : JsObject V) (k k2 : String) (v : V) :
    objGet (o ++ [(k, v)]) k2 =
      match objGet o k2 with
      | some w => some w
      | none => if k = k2 then some v else none := by
  induction o with
  | nil =>
    by_cases h : k = k2 <;> simp [objGet_cons, objGet_nil, h]
  | cons e rest ih =>
    obtain ⟨a, b⟩ := e
    by_cases ha : a = k2
    · simp [objGet_cons, ha]
    · simp only [List.cons_append, objGet_cons, ha, if_false, ih]

/-- A write leaves the reads of the other keys as they were. -/
theorem objGet_objSet_other {V : Type} (o : JsObject V) (k k2 : String) (v : V)
    (hk : k2 ≠ k) : objGet (objSet o k v) k2 = objGet o k2 := by
  have hk2 : ¬ k = k2 := fun h => hk h.symm
  unfold objSet
  split
  · exact objGet_objReplace_other o k k2 v hk
  · split
    · rfl
    · split
      · exact objGet_objInsertIndex_other o _ k k2 v hk
      · rw [objGet_append]
        cases objGet o k2 <;> simp [hk2]

/-- A write is read back, unless it went to the inherited accessor `__proto__`. -/
theorem objGet_objSet_same {V : Type} (o : JsObject V) (k : String) (v : V)
    (h : (objGet o k).isSome = true ∨ k ≠ "__proto__") :
    objGet (objSet o k v) k = some v := by
  unfold objSet
  by_cases hs : (objGet o k).isSome = true
  · simp only [hs, if_true]
    exact objGet_objReplace_same o k v hs
  · have hnone : objGet o k = none := by
      cases hg : objGet o k with
      | none => rfl
      | some w => simp [hg] at hs
    have hp : k ≠ "__proto__" := by
      rcases h with h | h
      · exact absurd h hs
      · exact h
    have hp2 : ¬ (k == "__proto__") = true := by simp [hp]
    rw [if_neg hs, if_neg hp2]
    cases arrayIndex k with
    | some n => exact objGet_objInsertIndex_same o n k v hnone
    | none =>
      show objGet (o ++ [(k, v)]) k = some v
      rw [objGet_append, hnone]
      simp

theorem objList_objSet_same (o : JsObject (List UserId)) (k : String) (v : List UserId)
    (h : (objGet o k).isSome = true ∨ k ≠ "__proto__") :
    objList (objSet o k v) k = v := by
  simp [objList, objGet_objSet_same o k v h]

theorem objList_objSet_other (o : JsObject (List UserId)) (k k2 : String) (v : List UserId)
    (hk : k2 ≠ k) : objList (objSet o k v) k2 = objList o k2 := by
  simp [objList, objGet_objSet_other o k k2 v hk]

theorem proto_inherited : inheritedNames.contains "__proto__" = true := by decide

theorem objRead_value {V : Type} (o : JsObject V) (k : String) (v : V)
    (h : objGet o k = some v) : objRead o k = .value v := by
  simp [objRead, h]

theorem objRead_inherited {V : Type} (o : JsObject V) (k : String)
    (h : objGet o k = none) (hi : inheritedNames.contains k = true) :
    objRead o k = .inherited k := by
  simp only [objRead, h, hi, if_true]

theorem objRead_undefined {V : Type} (o : JsObject V) (k : String)
    (h : objGet o k = none) (hi : inheritedNames.contains k = false) :
    objRead o k = .undefined := by
  simp only [objRead, h, hi]
  rfl

/-- The three outcomes of a read. -/
theorem objRead_cases {V : Type} (o : JsObject V) (k : String) :
    (∃ v, objGet o k = some v ∧ objRead o k = .value v) ∨
      (objGet o k = none ∧ inheritedNames.contains k = true ∧ objRead o k = .inherited k) ∨
      (objGet o k = none ∧ inheritedNames.contains k = false ∧ objRead o k = .undefined) := by
  cases hg : objGet o k with
  | none =>
    by_cases hi : inheritedNames.contains k = true
    · exact Or.inr (Or.inl ⟨rfl, hi, objRead_inherited o k hg hi⟩)
    · have hi2 : inheritedNames.contains k = false := by simpa using hi
      exact Or.inr (Or.inr ⟨rfl, hi2, objRead_undefined o k hg hi2⟩)
  | some v => exact Or.inl ⟨v, rfl, objRead_value o k v hg⟩

/-- Membership form of `isUserBlocked`. -/
theorem isUserBlocked_iff (s : Store) (userId targetUserId : UserId) :
    isUserBlocked s userId targetUserId = true ↔
      targetUserId ∈ objList (readBlocked s) userId := by
  unfold isUserBlocked objList
  rcases objRead_cases (readBlocked s) userId with ⟨v, hg, hr⟩ | ⟨hg, _, hr⟩ | ⟨hg, _, hr⟩ <;>
    simp [hg, hr]

/-! ## Contacts: the steps of `addContact` -/

theorem objGet_isSome_objSet {V : Type} (o : JsObject V) (k X : String) (v : V)
    (h : (objGet o k).isSome = true ∨ k ≠ "__proto__") :
    (objGet (objSet o k v) X).isSome = ((objGet o X).isSome || (X == k)) := by
  by_cases hX : X = k
  · subst hX
    simp [objGet_objSet_same o X v h]
  · simp [objGet_objSet_other o k X v hX, hX]

theorem readsInherited_false_of_some {V : Type} (o : JsObject V) (k : String)
    (h : (objGet o k).isSome = true) : readsInherited o k = false := by
  cases hg : objGet o k with
  | none => simp [hg] at h
  | some v => simp [readsInherited, hg]

theorem readsInherited_congr {V : Type} (o1 o2 : JsObject V) (k : String)
    (h : (objGet o1 k).isSome = (objGet o2 k).isSome) :
    readsInherited o1 k = readsInherited o2 k := by
  unfold readsInherited
  cases h1 : objGet o1 k <;> cases h2 : objGet o2 k <;> simp_all

/-- An ensure-and-push step throws exactly when the read yields an inherited member. -/
theorem objPush_none (o : JsObject (List UserId)) (k : String) (x : UserId)
    (h : readsInherited o k = true) : objPush o k x = none := by
  have h2 : objGet o k = none ∧ inheritedNames.contains k = true := by
    cases hg : objGet o k with
    | none => simpa [readsInherited, hg] using h
    | some v => simp [readsInherited, hg] at h
  have hr := objRead_inherited o k h2.1 h2.2
  simp only [objPush, hr]

/-- An ensure-and-push step that does not throw: the lists it leaves and the keys it
leaves. -/
theorem objPush_spec (o : JsObject (List UserId)) (k : String) (x : UserId)
    (h : readsInherited o k = false) :
    ∃ o2, objPush o k x = some o2 ∧
      (∀ X, objList o2 X =
        if X = k ∧ x ∉ objList o k then objList o k ++ [x] else objList o X) ∧
      (∀ X, (objGet o2 X).isSome = ((objGet o X).isSome || (X == k))) := by
  rcases objRead_cases o k with ⟨l, hg, hr⟩ | ⟨hg, hi, _⟩ | ⟨hg, hi, hr⟩
  · have hsome : (objGet o k).isSome = true := by simp [hg]
    have hl : objList o k = l := by simp [objList, hg]
    by_cases hx : x ∈ l
    · refine ⟨o, ?_, ?_, ?_⟩
      · simp [objPush, hr, hx]
      · intro X
        simp [hl, hx]
      · intro X
        by_cases hX : X = k
        · subst hX
          simp [hsome]
        · simp [hX]
    · refine ⟨objSet o k (l ++ [x]), ?_, ?_, ?_⟩
      · simp [objPush, hr, hx]
      · intro X
        by_cases hX : X = k
        · subst hX
          simp [hl, hx, objList_objSet_same o X _ (Or.inl hsome)]
        · simp [hX, objList_objSet_other o k X _ hX]
      · intro X
        exact objGet_isSome_objSet o k X _ (Or.inl hsome)
  · have ht : readsInherited o k = true := by
      simp only [readsInherited, hg, hi]
      rfl
    rw [ht] at h
    exact absurd h (by decide)
  · have hp : k ≠ "__proto__" := by
      intro hk
      rw [hk, proto_inherited] at hi
      exact absurd hi (by decide)
    have hl : objList o k = [] := by simp [objList, hg]
    have hg1 : objGet (objSet o k []) k = some [] := objGet_objSet_same o k [] (Or.inr hp)
    have hr1 := objRead_value _ k _ hg1
    have hsome1 : (objGet (objSet o k []) k).isSome = true := by simp [hg1]
    refine ⟨objSet (objSet o k []) k [x], ?_, ?_, ?_⟩
    · simp [objPush, hr, hr1]
    · intro X
      by_cases hX : X = k
      · subst hX
        simp [hl, objList_objSet_same _ X _ (Or.inl hsome1)]
      · simp [hX, objList_objSet_other _ k X _ hX]
    · intro X
      rw [objGet_isSome_objSet _ k X _ (Or.inl hsome1), objGet_isSome_objSet o k X _ (Or.inr hp)]
      cases (objGet o X).isSome <;> simp

theorem mem_pushed (l1 l2 : List UserId) (X k : String) (x Y : UserId)
    (hk : X = k → l2 = l1) :
    Y ∈ (if X = k ∧ x ∉ l1 then l1 ++ [x] else l2) ↔ Y ∈ l2 ∨ (X = k ∧ Y = x) := by
  by_cases hX : X = k
  · rw [hk hX]
    by_cases hx : x ∈ l1
    · simp [hX, hx]
      rintro rfl
      exact hx
    · simp [hX, hx]
  · simp [hX]

/-- With `x` already listed under `k`, the step leaves the object as it is. -/
theorem objPush_fixed (o : JsObject (List UserId)) (k : String) (x : UserId)
    (h : x ∈ objList o k) : objPush o k x = some o := by
  cases hg : objGet o k with
  | none => simp [objList, hg] at h
  | some l =>
    have hx : x ∈ l := by simpa [objList, hg] using h
    simp [objPush, objRead_value o k l hg, hx]

theorem addContact_eq (env : Env) (s : Store) (userId contactId : UserId) :
    addContact env s userId contactId =
      match (objPush (readContacts s) userId contactId).bind
          (fun c2 => objPush c2 contactId userId) with
      | none => (s, false)
      | some c4 =>
        if env.writeContactsOk then ({ s with contacts := some c4 }, true) else (s, false) := by
  unfold addContact writeContacts
  split
  · rfl
  · split <;> simp_all

/-- A failed `addContact` leaves the store as it was. -/
theorem addContact_false (env : Env) (s : Store) (A B : UserId)
    (h : (addContact env s A B).2 = false) : (addContact env s A B).1 = s := by
  rw [addContact_eq] at h ⊢
  split
  · rfl
  · split
    · rename_i hw
      simp [*] at h
    · rfl

/-- `addContact` answers true exactly when neither read yields an inherited member and
the contacts write succeeds. -/
theorem addContact_true_iff (env : Env) (s : Store) (A B : UserId) :
    (addContact env s A B).2 = true ↔
      readsInherited (readContacts s) A = false ∧ readsInherited (readContacts s) B = false ∧
        env.writeContactsOk = true := by
  rw [addContact_eq]
  by_cases hA : readsInherited (readContacts s) A = true
  · simp [objPush_none _ A B hA, hA]
  · have hA2 : readsInherited (readContacts s) A = false := by simpa using hA
    obtain ⟨c2, h2, _, hkeys⟩ := objPush_spec (readContacts s) A B hA2
    have hB : readsInherited c2 B = readsInherited (readContacts s) B := by
      by_cases hBA : B = A
      · subst hBA
        rw [hA2]
        apply readsInherited_false_of_some
        rw [hkeys]
        simp
      · apply readsInherited_congr
        rw [hkeys]
        simp [hBA]
    by_cases hB2 : readsInherited (readContacts s) B = true
    · simp [h2, objPush_none c2 B A (hB ▸ hB2), hA2, hB2]
    · have hB3 : readsInherited (readContacts s) B = false := by simpa using hB2
      obtain ⟨c4, h4, _, _⟩ := objPush_spec c2 B A (hB ▸ hB3)
      by_cases hw : env.writeContactsOk = true <;> simp [h2, h4, hA2, hB3, hw]

/-- A successful `addContact`: the contacts it wrote list what was listed before together
with the two edges, and keep duplicate-free lists duplicate-free. -/
theorem addContact_true (env : Env) (s : Store) (A B : UserId)
    (h : (addContact env s A B).2 = true) :
    ∃ c4, (addContact env s A B).1 = { s with contacts := some c4 } ∧
      (∀ X Y, Y ∈ objList c4 X ↔
        Y ∈ objList (readContacts s) X ∨ (X = A ∧ Y = B) ∨ (X = B ∧ Y = A)) ∧
      (∀ X, (objList (readContacts s) X).Nodup → (objList c4 X).Nodup) := by
  obtain ⟨hA, hB, hw⟩ := (addContact_true_iff env s A B).mp h
  obtain ⟨c2, h2, hl2, hkeys⟩ := objPush_spec (readContacts s) A B hA
  have hB2 : readsInherited c2 B = false := by
    by_cases hBA : B = A
    · subst hBA
      apply readsInherited_false_of_some
      rw [hkeys]
      simp
    · rw [readsInherited_congr c2 (readContacts s) B (by rw [hkeys]; simp [hBA])]
      exact hB
  obtain ⟨c4, h4, hl4, _⟩ := objPush_spec c2 B A hB2
  refine ⟨c4, ?_, ?_, ?_⟩
  · rw [addContact_eq]
    simp [h2, h4, hw]
  · intro X Y
    rw [hl4 X, mem_pushed _ _ X B A Y (fun hX => by rw [hX]), hl2 X,
      mem_pushed _ _ X A B Y (fun hX => by rw [hX])]
    tauto
  · intro X hX
    have hn2 : (objList c2 X).Nodup := by
      rw [hl2 X]
      split
      · rename_i hc
        rw [← hc.1, List.nodup_append]
        refine ⟨hX, List.nodup_singleton _, ?_⟩
        intro a ha hb
        simp at hb
        exact hc.2 (hc.1 ▸ hb ▸ ha)
      · exact hX
    rw [hl4 X]
    split
    · rename_i hc
      rw [← hc.1, List.nodup_append]
      refine ⟨hn2, List.nodup_singleton _, ?_⟩
      intro a ha hb
      simp at hb
      exact hc.2 (hc.1 ▸ hb ▸ ha)
    · exact hn2

theorem addContact_cases (env : Env) (s : Store) (A B : UserId) :
    (addContact env s A B).1 = s ∨ (addContact env s A B).2 = true := by
  cases h : (addContact env s A B).2
  · exact Or.inl (addContact_false env s A B h)
  · exact Or.inr rfl

theorem addContact_messages (env : Env) (s : Store) (userId contactId : UserId) :
    (addContact env s userId contactId).1.messages = s.messages := by
  rcases addContact_cases env s userId contactId with h | h
  · rw [h]
  · obtain ⟨c4, h4, _⟩ := addContact_true env s userId contactId h
    rw [h4]

theorem readMessages_addContact (env : Env) (s : Store) (userId contactId : UserId) :
    readMessages (addContact env s userId contactId).1 = readMessages s := by
  simp [readMessages, addContact_messages]

theorem not_blocked_eq (s : Store) (userId targetUserId : UserId)
    (h : targetUserId ∉ objList (readBlocked s) userId) :
    isUserBlocked s userId targetUserId = false := by
  cases hb : isUserBlocked s userId targetUserId
  · rfl
  · exact absurd ((isUserBlocked_iff s userId targetUserId).mp hb) h

/-- The send-message handler when the receiver does not block the sender and the messages
write succeeds. -/
theorem sendMessage_ok (env : Env) (st : ServerState) (socket : SocketId)
    (data : SendMessageData)
    (hnb : data.senderId ∉ objList (readBlocked st.store) data.receiverId)
    (hw : env.writeMessagesOk = true) :
    sendMessage env st socket data =
      ({ st with store :=
          { (addContact env st.store data.senderId data.receiverId).1 with
            messages := some (readMessages st.store ++ [newMessage env data]) } },
        [⟨.socket socket, .receiveMessage (newMessage env data) data.tempId⟩]
        ++ (match roomOf (objRead st.userSocketMap data.receiverId) with
            | some room => [⟨room, .receiveMessage (newMessage env data) none⟩]
            | none => [])
        ++ [⟨.socket socket, .contactsUpdated data.senderId⟩]
        ++ (match roomOf (objRead st.userSocketMap data.receiverId) with
            | some room => [⟨room, .contactsUpdated data.receiverId⟩]
            | none => [])) := by
  have h := not_blocked_eq st.store data.receiverId data.senderId hnb
  simp [sendMessage, h, writeMessages, hw, readMessages_addContact]

theorem objGet_mem {V : Type} (o : JsObject V) (k : String) (v : V)
    (h : objGet o k = some v) : (k, v) ∈ o := by
  unfold objGet at h
  cases hf : o.find? (fun e => e.1 == k) with
  | none => simp [hf] at h
  | some e =>
    have hm := List.mem_of_find?_eq_some hf
    have hp := List.find?_some hf
    simp [hf] at h
    have hk : e.1 = k := by simpa using hp
    have : e = (k, v) := by
      cases e
      simp_all
    rw [← this]; exact hm

/-- The room addressed for a key with an own entry holding a socket.io handle. -/
theorem roomOf_own (o : JsObject SocketId) (k : String) (h : SocketId)
    (hne : HandlesNonEmpty o) (hg : objGet o k = some h) :
    roomOf (objRead o k) = some (.socket h) := by
  have := hne _ (objGet_mem o k h hg)
  simp [objRead_value o k h hg, roomOf, this]

/-- The room addressed for a key with no own entry: the inherited member when the key
names one, none otherwise. -/
theorem roomOf_absent (o : JsObject SocketId) (k : String) (hg : objGet o k = none) :
    roomOf (objRead o k) =
      if inheritedNames.contains k then some (.inheritedValue k) else none := by
  by_cases hi : inheritedNames.contains k = true
  · simp only [objRead_inherited o k hg hi, roomOf, hi, if_true]
  · have hi2 : inheritedNames.contains k = false := by simpa using hi
    simp only [objRead_undefined o k hg hi2, roomOf, hi2]
    rfl

/-- The contacts file after the send-message handler: untouched when the sender is blocked,
otherwise what `addContact` left, whether or not the message is then persisted. -/
theorem sendMessage_contacts_eq (env : Env) (st : ServerState) (socket : SocketId)
    (data : SendMessageData) :
    (sendMessage env st socket data).1.store.contacts =
      if isUserBlocked st.store data.receiverId data.senderId then st.store.contacts
      else (addContact env st.store data.senderId data.receiverId).1.contacts := by
  by_cases hb : isUserBlocked st.store data.receiverId data.senderId = true
  · simp [sendMessage, hb]
  · by_cases hw : env.writeMessagesOk = true
    · simp [sendMessage, hb, writeMessages, hw]
    · simp [sendMessage, hb, writeMessages, hw]

/-- After a successful `addContact` both directions of the edge are listed. -/
theorem addContact_lists (env : Env) (s : Store) (A B : UserId)
    (h : (addContact env s A B).2 = true) :
    lists (addContact env s A B).1 A B ∧ lists (addContact env s A B).1 B A := by
  obtain ⟨c4, h4, hmem, _⟩ := addContact_true env s A B h
  unfold lists
  rw [h4]
  constructor
  · exact (hmem A B).mpr (Or.inr (Or.inl ⟨rfl, rfl⟩))
  · exact (hmem B A).mpr (Or.inr (Or.inr ⟨rfl, rfl⟩))

theorem lists_of_contacts_eq (s1 s2 : Store) (X Y : UserId) (h : s1.contacts = s2.contacts) :
    lists s1 X Y ↔ lists s2 X Y := by
  unfold lists readContacts
  rw [h]

/-! ## Message delivery: send -/

/-- C1: when the blocked collection lists the sender under the receiver, the send-message
handler emits exactly one event, message-blocked, addressed to the connection the request
came from, addresses nothing to any other connection, and leaves the messages collection, the
contacts collection and indeed the whole server state unchanged. -/
theorem sendMessage_blocked (env : Env) (st : ServerState) (socket : SocketId)
    (data : SendMessageData)
    (hb : data.senderId ∈ objList (readBlocked st.store) data.receiverId) :
    (sendMessage env st socket data).2 =
        [⟨.socket socket, .messageBlocked data.receiverId "You are blocked by this user"⟩] ∧
      (∀ e ∈ (sendMessage env st socket data).2,
        e.target = .socket socket ∧ e.payload.event = "message-blocked") ∧
      (sendMessage env st socket data).1.store.messages = st.store.messages ∧
      (sendMessage env st socket data).1.store.contacts = st.store.contacts ∧
      (sendMessage env st socket data).1 = st := by
  have h := (isUserBlocked_iff st.store data.receiverId data.senderId).mpr hb
  simp [sendMessage, h, Payload.event]

theorem sendMessage_blocked_witness :
    (exSend "carol").senderId ∈ objList (readBlocked exState.store) (exSend "carol").receiverId ∧
      (sendMessage exEnv exState "sock-a" (exSend "carol")).2 =
        [⟨.socket "sock-a", .messageBlocked "carol" "You are blocked by this user"⟩] ∧
      (sendMessage exEnv exState "sock-a" (exSend "carol")).1 = exState :=
  ⟨by decide,
   (sendMessage_blocked exEnv exState "sock-a" (exSend "carol") (by decide)).1,
   (sendMessage_blocked exEnv exState "sock-a" (exSend "carol") (by decide)).2.2.2.2⟩

/-- C2: when the receiver has not blocked the sender and the messages write succeeds, after
the send-message handler the answer of GET /api/messages for the pair (sender, receiver)
contains a message with the given sender, receiver, content and type (text when no type was
given), delivered, unread, not deleted and not edited; the stored collection is the old one
followed by the new record, so every message stored before is still stored unchanged. -/
theorem sendMessage_history (env : Env) (st : ServerState) (socket : SocketId)
    (data : SendMessageData)
    (hnb : data.senderId ∉ objList (readBlocked st.store) data.receiverId)
    (hw : env.writeMessagesOk = true) :
    (∃ l, apiGetMessages (sendMessage env st socket data).1.store data.senderId data.receiverId
          = ⟨200, .messages l⟩ ∧
        ∃ m ∈ l, m.senderId = data.senderId ∧ m.receiverId = data.receiverId ∧
          m.content = data.content ∧ m.type = data.type.getD "text" ∧
          (∀ t, data.type = some t → m.type = t) ∧
          m.delivered = true ∧ m.read = false ∧ m.isDeleted = false ∧ m.isEdited = false) ∧
      readMessages (sendMessage env st socket data).1.store =
        readMessages st.store ++ [newMessage env data] ∧
      (∀ m ∈ readMessages st.store, m ∈ readMessages (sendMessage env st socket data).1.store) := by
  rw [sendMessage_ok env st socket data hnb hw]
  refine ⟨⟨_, rfl, newMessage env data, ?_, rfl, rfl, rfl, rfl, ?_, rfl, rfl, rfl, rfl⟩, ?_, ?_⟩
  · simp [filteredMessages, readMessages, inConversation, newMessage]
  · intro t ht
    simp [newMessage, ht]
  · simp [readMessages]
  · intro m hm
    simp only [readMessages] at hm ⊢
    simp [hm]

theorem sendMessage_history_witness :
    (exSend "bob").senderId ∉ objList (readBlocked exState.store) (exSend "bob").receiverId ∧
      exEnv.writeMessagesOk = true ∧
      readMessages (sendMessage exEnv exState "sock-a" (exSend "bob")).1.store =
        readMessages exState.store ++ [newMessage exEnv (exSend "bob")] :=
  ⟨by decide, by decide,
   (sendMessage_history exEnv exState "sock-a" (exSend "bob") (by decide) (by decide)).2.1⟩

/-- C3, as stated, fails: bob does not block alice and alice's send to bob succeeds (the
message is persisted and acknowledged to her connection) while the contacts write inside
addContact fails, and afterwards neither alice lists bob nor bob lists alice. The same
happens with every write succeeding when the receiver id is "constructor", where the
read inside addContact yields an inherited member and addContact gives up. -/
theorem sendMessage_without_contact_edge :
    ((exSend "bob").senderId ∉ objList (readBlocked exState.store) (exSend "bob").receiverId ∧
      newMessage exEnvContactsFail (exSend "bob") ∈
        readMessages (sendMessage exEnvContactsFail exState "sock-a" (exSend "bob")).1.store ∧
      (⟨.socket "sock-a",
          .receiveMessage (newMessage exEnvContactsFail (exSend "bob")) (some "tmp-1")⟩ : Emit) ∈
        (sendMessage exEnvContactsFail exState "sock-a" (exSend "bob")).2 ∧
      ¬ lists (sendMessage exEnvContactsFail exState "sock-a" (exSend "bob")).1.store
          "alice" "bob" ∧
      ¬ lists (sendMessage exEnvContactsFail exState "sock-a" (exSend "bob")).1.store
          "bob" "alice") ∧
    ((exSend "constructor").senderId ∉
        objList (readBlocked exState.store) (exSend "constructor").receiverId ∧
      exEnv.writeContactsOk = true ∧
      newMessage exEnv (exSend "constructor") ∈
        readMessages (sendMessage exEnv exState "sock-a" (exSend "constructor")).1.store ∧
      (⟨.socket "sock-a",
          .receiveMessage (newMessage exEnv (exSend "constructor")) (some "tmp-1")⟩ : Emit) ∈
        (sendMessage exEnv exState "sock-a" (exSend "constructor")).2 ∧
      ¬ lists (sendMessage exEnv exState "sock-a" (exSend "constructor")).1.store
          "alice" "constructor" ∧
      ¬ lists (sendMessage exEnv exState "sock-a" (exSend "constructor")).1.store
          "constructor" "alice") := by
  refine ⟨⟨by decide, by decide, by decide, by decide, by decide⟩,
    ⟨by decide, by decide, by decide, by decide, by decide, by decide⟩⟩

/-- C3, amended: when the receiver has not blocked the sender, after the send-message
handler the contacts collection lists the receiver under the sender and the sender under
the receiver, whatever it contained before, provided the addContact call of the handler
succeeded; addContact succeeds exactly when its contacts write succeeds and neither id
reads as an inherited member of the contacts object. The handler ignores the result of
addContact: when addContact failed the contacts collection is as before, and the message is
still persisted and acknowledged once the messages write succeeds. -/
theorem sendMessage_contacts (env : Env) (st : ServerState) (socket : SocketId)
    (data : SendMessageData)
    (hnb : data.senderId ∉ objList (readBlocked st.store) data.receiverId) :
    ((addContact env st.store data.senderId data.receiverId).2 = true →
        lists (sendMessage env st socket data).1.store data.senderId data.receiverId ∧
        lists (sendMessage env st socket data).1.store data.receiverId data.senderId) ∧
      ((addContact env st.store data.senderId data.receiverId).2 = true ↔
        readsInherited (readContacts st.store) data.senderId = false ∧
        readsInherited (readContacts st.store) data.receiverId = false ∧
        env.writeContactsOk = true) ∧
      ((addContact env st.store data.senderId data.receiverId).2 = false →
        (sendMessage env st socket data).1.store.contacts = st.store.contacts ∧
        (env.writeMessagesOk = true →
          newMessage env data ∈ readMessages (sendMessage env st socket data).1.store ∧
          (⟨.socket socket, .receiveMessage (newMessage env data) data.tempId⟩ : Emit) ∈
            (sendMessage env st socket data).2)) := by
  have hb := not_blocked_eq st.store data.receiverId data.senderId hnb
  have hc : (sendMessage env st socket data).1.store.contacts =
      (addContact env st.store data.senderId data.receiverId).1.contacts := by
    rw [sendMessage_contacts_eq, hb]
    rfl
  refine ⟨?_, addContact_true_iff env st.store data.senderId data.receiverId, ?_⟩
  · intro hok
    have hl := addContact_lists env st.store data.senderId data.receiverId hok
    exact ⟨(lists_of_contacts_eq _ _ _ _ hc).mpr hl.1, (lists_of_contacts_eq _ _ _ _ hc).mpr hl.2⟩
  · intro hf
    refine ⟨?_, ?_⟩
    · rw [hc, addContact_false env st.store data.senderId data.receiverId hf]
    · intro hw
      rw [sendMessage_ok env st socket data hnb hw]
      simp [readMessages]

theorem sendMessage_contacts_witness :
    (exSend "bob").senderId ∉ objList (readBlocked exState.store) (exSend "bob").receiverId ∧
      (addContact exEnv exState.store "alice" "bob").2 = true ∧
      lists (sendMessage exEnv exState "sock-a" (exSend "bob")).1.store "alice" "bob" ∧
      lists (sendMessage exEnv exState "sock-a" (exSend "bob")).1.store "bob" "alice" :=
  ⟨by decide, by decide,
   (sendMessage_contacts exEnv exState "sock-a" (exSend "bob") (by decide)).1 (by decide)⟩

/-- C5, as stated, fails: alice sends to the receiver id "constructor", for which the
presence table has no entry; the read of the table yields the inherited member, which is
truthy, and a second receive-message is emitted, addressed to that value. -/
theorem sendMessage_receive_inherited :
    (exSend "constructor").senderId ∉
        objList (readBlocked exState.store) (exSend "constructor").receiverId ∧
      exEnv.writeMessagesOk = true ∧
      objGet exState.userSocketMap "constructor" = none ∧
      (sendMessage exEnv exState "sock-a" (exSend "constructor")).2.filter
          (fun e => e.payload.event == "receive-message") =
        [⟨.socket "sock-a",
            .receiveMessage (newMessage exEnv (exSend "constructor")) (some "tmp-1")⟩,
         ⟨.inheritedValue "constructor",
            .receiveMessage (newMessage exEnv (exSend "constructor")) none⟩] ∧
      (sendMessage exEnv exState "sock-a" (exSend "constructor")).2.filter
          (fun e => e.payload.event == "receive-message") ≠
        [⟨.socket "sock-a",
            .receiveMessage (newMessage exEnv (exSend "constructor")) (some "tmp-1")⟩] := by
  refine ⟨by decide, by decide, by decide, by decide, by decide⟩

/-- C5, amended: in every send that succeeds (receiver does not block sender, messages write
succeeds), with socket.io handles non-empty, the receive-message events emitted are exactly:
one to the connection the request came from, carrying the persisted record and the original
tempId, followed by one carrying the persisted record without tempId that is addressed to
the receiver's handle when the presence table has an entry for the receiver, and to the
inherited member when the table has no entry and the receiver id names an inherited member
of the table object; with no entry and a receiver id naming no inherited member only the
first is sent. -/
theorem sendMessage_receive_events (env : Env) (st : ServerState) (socket : SocketId)
    (data : SendMessageData)
    (hnb : data.senderId ∉ objList (readBlocked st.store) data.receiverId)
    (hw : env.writeMessagesOk = true)
    (hne : HandlesNonEmpty st.userSocketMap) :
    (sendMessage env st socket data).2.filter (fun e => e.payload.event == "receive-message") =
        ⟨.socket socket, .receiveMessage (newMessage env data) data.tempId⟩ ::
          (match objGet st.userSocketMap data.receiverId with
           | some h => [⟨.socket h, .receiveMessage (newMessage env data) none⟩]
           | none =>
             if inheritedNames.contains data.receiverId then
               [⟨.inheritedValue data.receiverId, .receiveMessage (newMessage env data) none⟩]
             else []) ∧
      newMessage env data ∈ readMessages (sendMessage env st socket data).1.store := by
  rw [sendMessage_ok env st socket data hnb hw]
  constructor
  · cases hg : objGet st.userSocketMap data.receiverId with
    | some h =>
      rw [roomOf_own _ _ h hne hg]
      simp [List.filter_cons, Payload.event]
    | none =>
      rw [roomOf_absent _ _ hg]
      by_cases hi : inheritedNames.contains data.receiverId = true
      · simp only [hi, if_true]
        simp [List.filter_cons, Payload.event]
      · have hi2 : inheritedNames.contains data.receiverId = false := by simpa using hi
        simp only [hi2]
        simp [List.filter_cons, Payload.event]
  · simp [readMessages]

theorem sendMessage_receive_events_witness :
    (exSend "bob").senderId ∉ objList (readBlocked exState.store) (exSend "bob").receiverId ∧
      exEnv.writeMessagesOk = true ∧ HandlesNonEmpty exState.userSocketMap ∧
      (sendMessage exEnv exState "sock-a" (exSend "bob")).2.filter
          (fun e => e.payload.event == "receive-message") =
        [⟨.socket "sock-a", .receiveMessage (newMessage exEnv (exSend "bob")) (some "tmp-1")⟩,
         ⟨.socket "sock-b", .receiveMessage (newMessage exEnv (exSend "bob")) none⟩] :=
  ⟨by decide, by decide, by simp [HandlesNonEmpty, exState],
   (sendMessage_receive_events exEnv exState "sock-a" (exSend "bob") (by decide) (by decide)
      (by simp [HandlesNonEmpty, exState])).1⟩

/-- C6: when writing the messages collection fails, the send-message handler emits no
receive-message and no contacts-updated event to any connection; unless the sender is
blocked it emits nothing at all. -/
theorem sendMessage_write_failure (env : Env) (st : ServerState) (socket : SocketId)
    (data : SendMessageData) (hw : env.writeMessagesOk = false) :
    (∀ e ∈ (sendMessage env st socket data).2,
        e.payload.event ≠ "receive-message" ∧ e.payload.event ≠ "contacts-updated") ∧
      (data.senderId ∉ objList (readBlocked st.store) data.receiverId →
        (sendMessage env st socket data).2 = []) := by
  constructor
  · intro e he
    by_cases hb : isUserBlocked st.store data.receiverId data.senderId = true
    · simp [sendMessage, hb] at he
      subst he
      simp [Payload.event]
    · simp [sendMessage, hb, writeMessages, hw] at he
  · intro hnb
    have h := not_blocked_eq st.store data.receiverId data.senderId hnb
    simp [sendMessage, h, writeMessages, hw]

theorem sendMessage_write_failure_witness :
    exEnvFail.writeMessagesOk = false ∧
      (sendMessage exEnvFail exState "sock-a" (exSend "bob")).2 = [] :=
  ⟨by decide,
   (sendMessage_write_failure exEnvFail exState "sock-a" (exSend "bob") (by decide)).2
     (by decide)⟩
/-! ## Message delivery: edit and delete by another identity -/

theorem find?_of_uniqueIds (l : List Message) (M : Message) (hu : UniqueIds l) (hM : M ∈ l) :
    l.find? (fun m => m.id == M.id) = some M := by
  induction l with
  | nil => simp at hM
  | cons a rest ih =>
    unfold UniqueIds at hu
    simp only [List.map_cons, List.nodup_cons] at hu
    rcases List.mem_cons.mp hM with h | h
    · subst h
      simp
    · have hne : ¬ a.id = M.id := by
        intro heq
        exact hu.1 (heq ▸ List.mem_map_of_mem (fun m => m.id) h)
      simp [List.find?_cons, hne]
      exact ih hu.2 h

/-- C4: for a stored message M (ids being unique) and a requestor u other than its sender,
the socket handlers delete-message and edit-message leave the whole server state unchanged
and emit nothing, and the REST endpoints answer 403 and leave the store unchanged. -/
theorem edit_delete_unauthorized (env : Env) (st : ServerState) (M : Message) (u : UserId)
    (content : String)
    (hM : M ∈ readMessages st.store) (hu : UniqueIds (readMessages st.store))
    (hne : u ≠ M.senderId) :
    deleteMessage env st M.id u = (st, []) ∧
      editMessage env st M.id u content = (st, []) ∧
      apiDeleteMessage env st.store M.id u =
        (st.store, ⟨403, .error "You can only delete your own messages"⟩) ∧
      apiEditMessage env st.store M.id u content =
        (st.store, ⟨403, .error "You can only edit your own messages"⟩) := by
  have hf := find?_of_uniqueIds _ M hu hM
  have hs : (M.senderId != u) = true := by
    simp only [bne_iff_ne, ne_eq]
    exact fun h => hne h.symm
  simp [deleteMessage, editMessage, apiDeleteMessage, apiEditMessage, hf, hs]

theorem edit_delete_unauthorized_witness :
    exMessage "m1" "alice" "bob" "hello" 1000 false ∈ readMessages exState.store ∧
      UniqueIds (readMessages exState.store) ∧
      "bob" ≠ (exMessage "m1" "alice" "bob" "hello" 1000 false).senderId ∧
      deleteMessage exEnv exState "m1" "bob" = (exState, []) ∧
      editMessage exEnv exState "m1" "bob" "changed" = (exState, []) ∧
      apiDeleteMessage exEnv exState.store "m1" "bob" =
        (exState.store, ⟨403, .error "You can only delete your own messages"⟩) ∧
      apiEditMessage exEnv exState.store "m1" "bob" "changed" =
        (exState.store, ⟨403, .error "You can only edit your own messages"⟩) :=
  ⟨by decide, by decide, by decide,
   edit_delete_unauthorized exEnv exState (exMessage "m1" "alice" "bob" "hello" 1000 false) "bob"
     "changed" (by decide) (by decide) (by decide)⟩

/-! ## Message delivery: history -/

/-- C7: GET /api/messages answers 200 with a list that holds a message exactly when it is
stored, not deleted, and exchanged between the two users in either direction; the list is
the stored collection with the other messages dropped, so nothing is added, repeated or
reordered. -/
theorem apiGetMessages_exact (s : Store) (A B : UserId) :
    apiGetMessages s A B = ⟨200, .messages (filteredMessages s A B)⟩ ∧
      (∀ m, m ∈ filteredMessages s A B ↔
        m ∈ readMessages s ∧ m.isDeleted = false ∧
          ((m.senderId = A ∧ m.receiverId = B) ∨ (m.senderId = B ∧ m.receiverId = A))) ∧
      List.Sublist (filteredMessages s A B) (readMessages s) ∧
      (∀ m, m.isDeleted = false →
        ((m.senderId = A ∧ m.receiverId = B) ∨ (m.senderId = B ∧ m.receiverId = A)) →
        (filteredMessages s A B).count m = (readMessages s).count m) := by
  refine ⟨rfl, ?_, List.filter_sublist _, ?_⟩
  · intro m
    simp [filteredMessages, inConversation, List.mem_filter]
  · intro m hd hc
    have hp : inConversation A B m = true := by
      simp [inConversation, hd]
      exact hc
    simp [filteredMessages, List.count_filter hp]

/-- C8, as stated, fails: after two sends from alice to bob with the clock set back in
between (5, then 3), GET /api/messages returns the two messages in storage order, which is
not ascending by timestamp. -/
theorem apiGetMessages_unordered :
    apiGetMessages exClockSetBack.store "alice" "bob" =
        ⟨200, .messages [newMessage (exEnvAt "m1" 5) (exSend "bob"),
          newMessage (exEnvAt "m2" 3) (exSend "bob")]⟩ ∧
      ¬ TimestampAscending (filteredMessages exClockSetBack.store "alice" "bob") := by
  constructor
  · decide
  · decide

/-- C8, amended: GET /api/messages keeps storage order, so its answer ascends by timestamp
whenever the stored collection does (and is then shown as received); and the client, in
displayMessages, sorts what it received, so for every stored collection, ordered or not, the
displayed sequence is a rearrangement of the answer that ascends by timestamp. -/
theorem apiGetMessages_order (s : Store) (A B : UserId) :
    apiGetMessages s A B = ⟨200, .messages (filteredMessages s A B)⟩ ∧
      List.Sublist (filteredMessages s A B) (readMessages s) ∧
      (TimestampAscending (readMessages s) →
        TimestampAscending (filteredMessages s A B) ∧
        displayMessagesOrder (filteredMessages s A B) = filteredMessages s A B) ∧
      TimestampAscending (displayMessagesOrder (filteredMessages s A B)) ∧
      (displayMessagesOrder (filteredMessages s A B)).Perm (filteredMessages s A B) := by
  haveI : IsTotal Message (fun a b => a.timestamp ≤ b.timestamp) :=
    ⟨fun a b => Nat.le_total _ _⟩
  haveI : IsTrans Message (fun a b => a.timestamp ≤ b.timestamp) :=
    ⟨fun _ _ _ hab hbc => Nat.le_trans hab hbc⟩
  refine ⟨rfl, List.filter_sublist _, ?_, ?_, ?_⟩
  · intro h
    have hf : TimestampAscending (filteredMessages s A B) :=
      List.Pairwise.sublist (List.filter_sublist _) h
    exact ⟨hf, List.Sorted.insertionSort_eq hf⟩
  · exact List.sorted_insertionSort _ _
  · exact List.perm_insertionSort _ _

theorem apiGetMessages_order_witness :
    (TimestampAscending (readMessages exHistoryStore) ∧
      filteredMessages exHistoryStore "alice" "bob" =
        [exMessage "m1" "alice" "bob" "hello" 1000 false,
         exMessage "m2" "bob" "alice" "hi" 1100 false,
         exMessage "m5" "alice" "bob" "bye" 1400 false] ∧
      TimestampAscending (filteredMessages exHistoryStore "alice" "bob") ∧
      displayMessagesOrder (filteredMessages exHistoryStore "alice" "bob") =
        filteredMessages exHistoryStore "alice" "bob") ∧
    (¬ TimestampAscending (filteredMessages exClockSetBack.store "alice" "bob") ∧
      displayMessagesOrder (filteredMessages exClockSetBack.store "alice" "bob") =
        [newMessage (exEnvAt "m2" 3) (exSend "bob"),
         newMessage (exEnvAt "m1" 5) (exSend "bob")] ∧
      TimestampAscending
        (displayMessagesOrder (filteredMessages exClockSetBack.store "alice" "bob"))) :=
  ⟨⟨by decide, by decide,
    ((apiGetMessages_order exHistoryStore "alice" "bob").2.2.1 (by decide)).1,
    ((apiGetMessages_order exHistoryStore "alice" "bob").2.2.1 (by decide)).2⟩,
   ⟨by decide, by decide,
    (apiGetMessages_order exClockSetBack.store "alice" "bob").2.2.2.1⟩⟩

/-! ## Presence -/

theorem userOnline_map (env : Env) (st : ServerState) (socket : SocketId) (userId : UserId) :
    (userOnline env st socket userId).1.userSocketMap = objSet st.userSocketMap userId socket := by
  unfold userOnline
  simp only []
  split
  · rfl
  · split <;> rfl

theorem filter_key_absent {V : Type} (o : JsObject V) (k : String)
    (h : k ∉ o.map (fun e => e.1)) : o.filter (fun e => e.1 == k) = [] := by
  rw [List.filter_eq_nil_iff]
  intro e he hk
  have hk2 : e.1 = k := by simpa using hk
  exact h (hk2 ▸ List.mem_map_of_mem (fun e => e.1) he)

theorem not_mem_keys_of_objGet_none {V : Type} (o : JsObject V) (k : String)
    (h : objGet o k = none) : k ∉ o.map (fun e => e.1) := by
  intro hk
  obtain ⟨e, he, hek⟩ := List.mem_map.mp hk
  unfold objGet at h
  cases hf : o.find? (fun e => e.1 == k) with
  | some x => simp [hf] at h
  | none =>
    have := List.find?_eq_none.mp hf e he
    simp [hek] at this

theorem filter_objReplace_other {V : Type} (o : JsObject V) (k : String) (v : V) :
    (objReplace o k v).filter (fun e => !(e.1 == k)) = o.filter (fun e => !(e.1 == k)) := by
  induction o with
  | nil => rfl
  | cons e rest ih =>
    by_cases h : e.1 = k
    · simp [objReplace, h, List.filter_cons]
    · simp [objReplace, h, List.filter_cons, ih]

theorem filter_objInsertIndex_other {V : Type} (o : JsObject V) (n : Nat) (k : String) (v : V) :
    (objInsertIndex o n k v).filter (fun e => !(e.1 == k)) =
      o.filter (fun e => !(e.1 == k)) := by
  induction o with
  | nil => simp [objInsertIndex]
  | cons e rest ih =>
    unfold objInsertIndex
    cases arrayIndex e.1 with
    | none => simp [List.filter_cons]
    | some m =>
      by_cases hm : m < n
      · simp only [hm, if_true]
        rw [List.filter_cons, List.filter_cons, ih]
      · simp only [hm, if_false]
        simp [List.filter_cons]

/-- The assignment `o[k] = v` leaves the entries of every other key in place and in order. -/
theorem filter_objSet_other {V : Type} (o : JsObject V) (k : String) (v : V) :
    (objSet o k v).filter (fun e => !(e.1 == k)) = o.filter (fun e => !(e.1 == k)) := by
  unfold objSet
  split
  · exact filter_objReplace_other o k v
  · split
    · rfl
    · cases arrayIndex k with
      | some n => exact filter_objInsertIndex_other o n k v
      | none => simp [List.filter_append]

theorem keys_objReplace {V : Type} (o : JsObject V) (k : String) (v : V) :
    (objReplace o k v).map (fun e => e.1) = o.map (fun e => e.1) := by
  induction o with
  | nil => rfl
  | cons e rest ih =>
    by_cases h : e.1 = k
    · simp [objReplace, h]
    · simp [objReplace, h, ih]

theorem keys_objInsertIndex {V : Type} (o : JsObject V) (n : Nat) (k : String) (v : V) :
    ((objInsertIndex o n k v).map (fun e => e.1)).Perm (k :: o.map (fun e => e.1)) := by
  induction o with
  | nil => simp [objInsertIndex]
  | cons e rest ih =>
    unfold objInsertIndex
    cases arrayIndex e.1 with
    | none => exact List.Perm.refl _
    | some m =>
      by_cases hm : m < n
      · simp only [hm, if_true, List.map_cons]
        exact (List.Perm.cons e.1 ih).trans (List.Perm.swap k e.1 _)
      · simp only [hm, if_false]
        exact List.Perm.refl _

/-- The assignment `o[k] = v` keeps the keys of the object pairwise distinct. -/
theorem objWF_objSet {V : Type} (o : JsObject V) (k : String) (v : V) (hwf : ObjWF o) :
    ObjWF (objSet o k v) := by
  unfold ObjWF at hwf ⊢
  unfold objSet
  split
  · rw [keys_objReplace]
    exact hwf
  · rename_i hs
    have hg : objGet o k = none := by
      cases hg : objGet o k with
      | none => rfl
      | some x => simp [hg] at hs
    have hk := not_mem_keys_of_objGet_none o k hg
    split
    · exact hwf
    · cases arrayIndex k with
      | some n =>
        exact (List.Perm.nodup_iff (keys_objInsertIndex o n k v)).mpr
          (List.nodup_cons.mpr ⟨hk, hwf⟩)
      | none =>
        show ((o ++ [(k, v)]).map (fun e => e.1)).Nodup
        rw [List.map_append, List.nodup_append]
        refine ⟨hwf, List.nodup_singleton _, ?_⟩
        intro a ha hb
        simp at hb
        exact hk (hb ▸ ha)

/-- In an object with distinct keys the entries under `k` are the one entry read for `k`. -/
theorem filter_key_of_objGet {V : Type} (o : JsObject V) (k : String) (v : V) (hwf : ObjWF o)
    (hg : objGet o k = some v) : o.filter (fun e => e.1 == k) = [(k, v)] := by
  induction o with
  | nil => simp [objGet] at hg
  | cons e rest ih =>
    obtain ⟨a, b⟩ := e
    unfold ObjWF at hwf
    simp only [List.map_cons, List.nodup_cons] at hwf
    by_cases h : a = k
    · subst h
      have hb : b = v := by simpa [objGet] using hg
      have hab := filter_key_absent rest a hwf.1
      simp [List.filter_cons, hab, hb]
    · have hg2 : objGet rest k = some v := by
        have : objGet ((a, b) :: rest) k = objGet rest k := by
          simp [objGet, List.find?_cons, h]
        rw [← this]; exact hg
      simp [List.filter_cons, h]
      exact ih hwf.2 hg2

/-- C9, as stated, fails: after user-online for the user id "__proto__" on connection
old-h and then on connection new-h, the presence table is as it was before, with no
entry for that id; the assignment stored nothing, and the read of the table for that id
yields the inherited member. -/
theorem userOnline_proto_not_registered :
    (userOnline exEnv (userOnline exEnv exState "old-h" "__proto__").1 "new-h"
        "__proto__").1.userSocketMap = exState.userSocketMap ∧
      (userOnline exEnv (userOnline exEnv exState "old-h" "__proto__").1 "new-h"
        "__proto__").1.userSocketMap.filter (fun e => e.1 == "__proto__") = [] ∧
      objGet (userOnline exEnv (userOnline exEnv exState "old-h" "__proto__").1 "new-h"
        "__proto__").1.userSocketMap "__proto__" = none ∧
      objRead (userOnline exEnv (userOnline exEnv exState "old-h" "__proto__").1 "new-h"
        "__proto__").1.userSocketMap "__proto__" = .inherited "__proto__" := by
  refine ⟨by decide, by decide, by decide, by decide⟩

/-- C9, amended: on a presence table (a JavaScript object, so with distinct keys), after
user-online for user u on connection h1 and then user-online for u on connection h2, the
entries of all other users are as before; when u is not "__proto__" (or the table has
an own entry for u) the table holds exactly one entry for u, namely u to h2; for the id
"__proto__" without an own entry the assignment stores nothing and the table is as
before. -/
theorem userOnline_twice (env1 env2 : Env) (st : ServerState) (u : UserId) (h1 h2 : SocketId)
    (hwf : ObjWF st.userSocketMap) :
    ((objGet st.userSocketMap u).isSome = true ∨ u ≠ "__proto__" →
        (userOnline env2 (userOnline env1 st h1 u).1 h2 u).1.userSocketMap.filter
          (fun e => e.1 == u) = [(u, h2)] ∧
        objGet (userOnline env2 (userOnline env1 st h1 u).1 h2 u).1.userSocketMap u = some h2) ∧
      (objGet st.userSocketMap u = none → u = "__proto__" →
        (userOnline env2 (userOnline env1 st h1 u).1 h2 u).1.userSocketMap = st.userSocketMap ∧
        objGet (userOnline env2 (userOnline env1 st h1 u).1 h2 u).1.userSocketMap u = none) ∧
      (userOnline env2 (userOnline env1 st h1 u).1 h2 u).1.userSocketMap.filter
        (fun e => !(e.1 == u)) = st.userSocketMap.filter (fun e => !(e.1 == u)) ∧
      (∀ v, v ≠ u →
        objGet (userOnline env2 (userOnline env1 st h1 u).1 h2 u).1.userSocketMap v =
          objGet st.userSocketMap v) ∧
      ObjWF (userOnline env2 (userOnline env1 st h1 u).1 h2 u).1.userSocketMap := by
  rw [userOnline_map, userOnline_map]
  have hwf1 := objWF_objSet st.userSocketMap u h1 hwf
  refine ⟨?_, ?_, ?_, ?_, objWF_objSet _ _ _ hwf1⟩
  · intro hu
    have hu1 : (objGet (objSet st.userSocketMap u h1) u).isSome = true := by
      rw [objGet_objSet_same _ _ _ hu]
      rfl
    have hg := objGet_objSet_same (objSet st.userSocketMap u h1) u h2 (Or.inl hu1)
    exact ⟨filter_key_of_objGet _ _ _ (objWF_objSet _ _ _ hwf1) hg, hg⟩
  · intro hg hu
    have h0 : ∀ h : SocketId, objSet st.userSocketMap u h = st.userSocketMap := by
      intro h
      subst hu
      simp [objSet, hg]
    rw [h0 h1, h0 h2]
    exact ⟨rfl, hg⟩
  · rw [filter_objSet_other, filter_objSet_other]
  · intro v hv
    rw [objGet_objSet_other _ _ _ _ hv, objGet_objSet_other _ _ _ _ hv]

theorem userOnline_twice_witness :
    ObjWF exState.userSocketMap ∧
      (userOnline exEnv (userOnline exEnv exState "old-h" "alice").1 "new-h" "alice").1.userSocketMap
        = [("bob", "sock-b"), ("alice", "new-h")] ∧
      (userOnline exEnv (userOnline exEnv exState "old-h" "alice").1 "new-h"
        "alice").1.userSocketMap.filter (fun e => e.1 == "alice") = [("alice", "new-h")] :=
  ⟨by decide, by decide,
   ((userOnline_twice exEnv exEnv exState "alice" "old-h" "new-h" (by decide)).1
      (Or.inr (by decide))).1⟩

theorem objGet_of_mem {V : Type} (o : JsObject V) (k : String) (v : V) (hwf : ObjWF o)
    (hm : (k, v) ∈ o) : objGet o k = some v := by
  induction o with
  | nil => simp at hm
  | cons e rest ih =>
    unfold ObjWF at hwf
    simp only [List.map_cons, List.nodup_cons] at hwf
    rcases List.mem_cons.mp hm with h | h
    · subst h
      simp [objGet]
    · have hne : ¬ e.1 = k := by
        intro heq
        exact hwf.1 (heq ▸ List.mem_map_of_mem (fun e => e.1) h)
      have ih2 := ih hwf.2 h
      simp only [objGet] at ih2 ⊢
      simp [List.find?_cons, hne, ih2]

theorem objGet_objDelete_other {V : Type} (o : JsObject V) (k k2 : String) (hk : k2 ≠ k) :
    objGet (objDelete o k) k2 = objGet o k2 := by
  induction o with
  | nil => simp [objDelete, objGet]
  | cons e rest ih =>
    obtain ⟨a, b⟩ := e
    have hskip : ∀ l : JsObject V, ¬ a = k2 → objGet ((a, b) :: l) k2 = objGet l k2 := by
      intro l hn
      simp [objGet, List.find?_cons, hn]
    by_cases h : a = k
    · subst h
      have h1 : objDelete ((a, b) :: rest) a = objDelete rest a := by simp [objDelete]
      rw [h1, hskip rest (fun h3 => hk h3.symm), ih]
    · have h1 : objDelete ((a, b) :: rest) k = (a, b) :: objDelete rest k := by
        simp [objDelete, h]
      rw [h1]
      by_cases h5 : a = k2
      · simp [objGet, h5]
      · rw [hskip _ h5, hskip _ h5, ih]

theorem filter_modifyFirst_other {α : Type} (p q : α → Bool) (f : α → α) (l : List α)
    (hpq : ∀ a, p a = true → q a = false) (hf : ∀ a, p a = true → q (f a) = false) :
    (modifyFirst p f l).filter q = l.filter q := by
  induction l with
  | nil => rfl
  | cons a rest ih =>
    by_cases hp : p a = true
    · simp [modifyFirst, hp, List.filter_cons, hpq a hp, hf a hp]
    · simp [modifyFirst, hp, List.filter_cons, ih]

/-- The records of user `u` are untouched when the status of another user `v` is set. -/
theorem filter_setStatus_other (l : List User) (u v : UserId) (status : String)
    (now : Timestamp) (hvu : v ≠ u) :
    (modifyFirst (fun x => x.id == v) (setStatus status now) l).filter (fun x => x.id == u) =
      l.filter (fun x => x.id == u) := by
  apply filter_modifyFirst_other
  · intro a ha
    have h1 : a.id = v := by simpa using ha
    simp [h1, hvu]
  · intro a ha
    have h1 : a.id = v := by simpa using ha
    simp [setStatus, h1, hvu]

/-- C10: when the presence table (a JavaScript object, so with distinct keys) maps user u
to the handle hNew, as it does after u registered with hOld and then re-registered with hNew,
the disconnect of another handle hOld leaves the entry u to hNew in place, leaves the stored
records of u, status included, unchanged, and broadcasts no user-status-changed event
for u. -/
theorem disconnect_stale (env : Env) (st : ServerState) (u : UserId) (hOld hNew : SocketId)
    (hwf : ObjWF st.userSocketMap)
    (hcur : objGet st.userSocketMap u = some hNew) (hne : hOld ≠ hNew) :
    objGet (disconnect env st hOld).1.userSocketMap u = some hNew ∧
      (readUsers (disconnect env st hOld).1.store).filter (fun x => x.id == u) =
        (readUsers st.store).filter (fun x => x.id == u) ∧
      (∀ e ∈ (disconnect env st hOld).2, ∀ status,
        e.payload ≠ .userStatusChanged u status) := by
  unfold disconnect
  split
  · exact ⟨hcur, rfl, by simp⟩
  · rename_i v h hfind
    have hmem := List.mem_of_find?_eq_some hfind
    have hval : h = hOld := by simpa using List.find?_some hfind
    have hvu : v ≠ u := by
      intro heq
      subst heq
      have := objGet_of_mem _ _ _ hwf hmem
      rw [hcur] at this
      simp at this
      exact hne (hval ▸ this.symm)
    have hget : objGet (objDelete st.userSocketMap v) u = some hNew := by
      rw [objGet_objDelete_other _ _ _ (fun h2 => hvu h2.symm)]; exact hcur
    simp only []
    split
    · exact ⟨hget, rfl, by simp⟩
    · unfold writeUsers
      by_cases hw : env.writeUsersOk = true
      · simp only [hw, if_true]
        refine ⟨hget, ?_, ?_⟩
        · simp only [readUsers, Option.getD_some]
          exact filter_setStatus_other _ u v "offline" env.now hvu
        · intro e he status
          simp at he
          subst he
          simp [hvu]
      · simp only [hw]
        exact ⟨hget, rfl, by simp⟩

theorem disconnect_stale_witness :
    ObjWF exReconnected.userSocketMap ∧
      objGet exReconnected.userSocketMap "alice" = some "new-h" ∧ "old-h" ≠ "new-h" ∧
      (disconnect exEnv exReconnected "old-h").1.userSocketMap =
        [("bob", "sock-b"), ("alice", "new-h")] ∧
      objGet (disconnect exEnv exReconnected "old-h").1.userSocketMap "alice" = some "new-h" :=
  ⟨by decide, by decide, by decide, by decide,
   (disconnect_stale exEnv exReconnected "alice" "old-h" "new-h" (by decide) (by decide)
      (by decide)).1⟩

/-! ## Message delivery: outcome of the REST edit and delete endpoints -/

theorem find?_id_none (l : List Message) (id : String) :
    l.find? (fun m => m.id == id) = none ↔ ∀ m ∈ l, m.id ≠ id := by
  simp [List.find?_eq_none]

theorem find?_id_some (l : List Message) (id : String) (M : Message)
    (h : l.find? (fun m => m.id == id) = some M) : M ∈ l ∧ M.id = id := by
  refine ⟨List.mem_of_find?_eq_some h, ?_⟩
  simpa using List.find?_some h

/-- With unique ids, a stored message is determined by its id. -/
theorem eq_of_uniqueIds (l : List Message) (M N : Message) (hu : UniqueIds l)
    (hM : M ∈ l) (hN : N ∈ l) (hid : N.id = M.id) : N = M := by
  have h1 := find?_of_uniqueIds l M hu hM
  have h2 := find?_of_uniqueIds l N hu hN
  rw [hid, h1] at h2
  exact (Option.some.inj h2).symm

/-- C11: on a messages collection with unique ids, the REST delete and edit endpoints answer
404 exactly when no stored message has the id, 403 exactly when a stored message has the id
and its senderId differs from userId, and otherwise 200 (the write of messages.json
succeeding; a failed write is answered 500); when the answer is 404 or 403 the store is
left as it was. -/
theorem apiEditDelete_status (env : Env) (s : Store) (id : String) (userId : UserId)
    (content : String) (hu : UniqueIds (readMessages s)) :
    ((apiDeleteMessage env s id userId).2.status = 404 ↔ ∀ m ∈ readMessages s, m.id ≠ id) ∧
      ((apiEditMessage env s id userId content).2.status = 404 ↔
        ∀ m ∈ readMessages s, m.id ≠ id) ∧
      ((apiDeleteMessage env s id userId).2.status = 403 ↔
        ∃ m ∈ readMessages s, m.id = id ∧ m.senderId ≠ userId) ∧
      ((apiEditMessage env s id userId content).2.status = 403 ↔
        ∃ m ∈ readMessages s, m.id = id ∧ m.senderId ≠ userId) ∧
      (¬ (∀ m ∈ readMessages s, m.id ≠ id) →
        ¬ (∃ m ∈ readMessages s, m.id = id ∧ m.senderId ≠ userId) →
        ((apiDeleteMessage env s id userId).2.status = 200 ↔ env.writeMessagesOk = true) ∧
        ((apiEditMessage env s id userId content).2.status = 200 ↔
          env.writeMessagesOk = true) ∧
        (env.writeMessagesOk = false →
          (apiDeleteMessage env s id userId).2.status = 500 ∧
          (apiEditMessage env s id userId content).2.status = 500)) ∧
      ((apiDeleteMessage env s id userId).2.status = 404 ∨
        (apiDeleteMessage env s id userId).2.status = 403 →
          (apiDeleteMessage env s id userId).1 = s) ∧
      ((apiEditMessage env s id userId content).2.status = 404 ∨
        (apiEditMessage env s id userId content).2.status = 403 →
          (apiEditMessage env s id userId content).1 = s) := by
  cases hf : (readMessages s).find? (fun m => m.id == id) with
  | none =>
    have hnone := (find?_id_none _ id).mp hf
    have hex : ¬ ∃ m ∈ readMessages s, m.id = id ∧ m.senderId ≠ userId := by
      rintro ⟨m, hm, hid, _⟩
      exact hnone m hm hid
    simp only [apiDeleteMessage, apiEditMessage, hf]
    simp [hnone, hex]
    intro m hm hid
    exact absurd hid (hnone m hm)
  | some M =>
    obtain ⟨hM, hid⟩ := find?_id_some _ id M hf
    have hsome : ¬ ∀ m ∈ readMessages s, m.id ≠ id := fun h => h M hM hid
    by_cases hs : M.senderId = userId
    · have hex : ¬ ∃ m ∈ readMessages s, m.id = id ∧ m.senderId ≠ userId := by
        rintro ⟨m, hm, hmid, hne⟩
        have := eq_of_uniqueIds _ M m hu hM hm (hmid.trans hid.symm)
        exact hne (this ▸ hs)
      have hb : (M.senderId != userId) = false := by simp [hs]
      by_cases hw : env.writeMessagesOk = true
      · simp only [apiDeleteMessage, apiEditMessage, hf, hb, writeMessages, hw]
        simp [hsome, hex]
      · have hw2 : env.writeMessagesOk = false := by simpa using hw
        simp only [apiDeleteMessage, apiEditMessage, hf, hb, writeMessages, hw2]
        simp [hsome, hex]
    · have hex : ∃ m ∈ readMessages s, m.id = id ∧ m.senderId ≠ userId := ⟨M, hM, hid, hs⟩
      have hb : (M.senderId != userId) = true := by simp [hs]
      simp only [apiDeleteMessage, apiEditMessage, hf, hb]
      simp [hsome, hex]

theorem apiEditDelete_status_witness :
    UniqueIds (readMessages exState.store) ∧
      (apiDeleteMessage exEnv exState.store "m9" "alice").2.status = 404 ∧
      (apiEditMessage exEnv exState.store "m1" "bob" "changed").2.status = 403 ∧
      (apiEditMessage exEnv exState.store "m1" "alice" "changed").2.status = 200 :=
  ⟨by decide,
   (apiEditDelete_status exEnv exState.store "m9" "alice" "changed" (by decide)).1.mpr
     (by decide),
   (apiEditDelete_status exEnv exState.store "m1" "bob" "changed" (by decide)).2.2.2.1.mpr
     (by decide),
   ((apiEditDelete_status exEnv exState.store "m1" "alice" "changed" (by decide)).2.2.2.2.1
     (by decide) (by decide)).2.1.mpr (by decide)⟩

/-! ## Message delivery: effect of edit, delete and read on the stored collection -/

/-- With unique ids, updating the first message whose id is that of `M` updates `M` alone. -/
theorem modifyFirst_eq_replaced (l : List Message) (M : Message) (f : Message → Message)
    (hu : UniqueIds l) (hM : M ∈ l) :
    modifyFirst (fun m => m.id == M.id) f l = replaced l M (f M) := by
  unfold replaced
  induction l with
  | nil => simp at hM
  | cons a rest ih =>
    have hu2 := hu
    unfold UniqueIds at hu2
    simp only [List.map_cons, List.nodup_cons] at hu2
    by_cases ha : a = M
    · subst ha
      have hrest : rest.map (fun m => if m = a then f a else m) = rest := by
        have : ∀ m ∈ rest, (fun m => if m = a then f a else m) m = m := by
          intro m hm
          have hne : m ≠ a := by
            intro h
            exact hu2.1 (h ▸ List.mem_map_of_mem (fun m => m.id) hm)
          simp [hne]
        rw [List.map_congr_left this]
        simp
      simp [modifyFirst, hrest]
    · have hMr : M ∈ rest := by
        rcases List.mem_cons.mp hM with h | h
        · exact absurd h.symm ha
        · exact h
      have hid : ¬ a.id = M.id := by
        intro h
        exact hu2.1 (h ▸ List.mem_map_of_mem (fun m => m.id) hMr)
      simp [modifyFirst, hid, ha]
      exact ih hu2.2 hMr

theorem mem_replaced_of_ne (l : List Message) (M N m : Message) (hm : m ∈ l) (hne : m ≠ M) :
    m ∈ replaced l M N := by
  unfold replaced
  exact List.mem_map.mpr ⟨m, hm, by simp [hne]⟩

theorem mem_replaced (l : List Message) (M N : Message) (hM : M ∈ l) : N ∈ replaced l M N := by
  unfold replaced
  exact List.mem_map.mpr ⟨M, hM, by simp⟩

theorem mem_replaced_cases (l : List Message) (M N m : Message) (hm : m ∈ replaced l M N) :
    m = N ∨ (m ∈ l ∧ m ≠ M) := by
  unfold replaced at hm
  obtain ⟨a, ha, hma⟩ := List.mem_map.mp hm
  by_cases h : a = M
  · left
    simpa [h] using hma.symm
  · right
    have : m = a := by simpa [h] using hma.symm
    exact ⟨this ▸ ha, this ▸ h⟩

theorem deleteMessage_by_sender (env : Env) (st : ServerState) (M : Message)
    (hM : M ∈ readMessages st.store) (hu : UniqueIds (readMessages st.store))
    (hw : env.writeMessagesOk = true) :
    deleteMessage env st M.id M.senderId =
      ({ st with store := { st.store with
          messages := some (replaced (readMessages st.store) M (markDeleted env.now M)) } },
        [⟨.all, .messageDeleted M.id⟩]) := by
  have hf := find?_of_uniqueIds _ M hu hM
  have hmf := modifyFirst_eq_replaced _ M (markDeleted env.now) hu hM
  simp [deleteMessage, hf, writeMessages, hw, hmf]

theorem editMessage_by_sender (env : Env) (st : ServerState) (M : Message) (content : String)
    (hM : M ∈ readMessages st.store) (hu : UniqueIds (readMessages st.store))
    (hw : env.writeMessagesOk = true) :
    editMessage env st M.id M.senderId content =
      ({ st with store := { st.store with
          messages := some (replaced (readMessages st.store) M (markEdited env.now content M)) } },
        [⟨.all, .messageEdited M.id content env.now⟩]) := by
  have hf := find?_of_uniqueIds _ M hu hM
  have hmf := modifyFirst_eq_replaced _ M (markEdited env.now content) hu hM
  simp [editMessage, hf, writeMessages, hw, hmf]

theorem apiDeleteMessage_by_sender (env : Env) (s : Store) (M : Message)
    (hM : M ∈ readMessages s) (hu : UniqueIds (readMessages s))
    (hw : env.writeMessagesOk = true) :
    apiDeleteMessage env s M.id M.senderId =
      ({ s with messages := some (replaced (readMessages s) M (markDeleted env.now M)) },
        ⟨200, .success "Message deleted successfully"⟩) := by
  have hf := find?_of_uniqueIds _ M hu hM
  have hmf := modifyFirst_eq_replaced _ M (markDeleted env.now) hu hM
  simp [apiDeleteMessage, hf, writeMessages, hw, hmf]

theorem apiEditMessage_by_sender (env : Env) (s : Store) (M : Message) (content : String)
    (hM : M ∈ readMessages s) (hu : UniqueIds (readMessages s))
    (hw : env.writeMessagesOk = true) :
    apiEditMessage env s M.id M.senderId content =
      ({ s with messages := some (replaced (readMessages s) M (markEdited env.now content M)) },
        ⟨200, .edited "Message edited successfully" (markEdited env.now content M)⟩) := by
  have hf := find?_of_uniqueIds _ M hu hM
  have hmf := modifyFirst_eq_replaced _ M (markEdited env.now content) hu hM
  simp [apiEditMessage, hf, writeMessages, hw, hmf]

/-- C12: for a stored message M (ids being unique) and a write of messages.json that
succeeds, an edit by M's sender, through the socket handler or the REST endpoint, replaces M
by M with content set to the new content, isEdited set to true and editedAt set to the
current time; a delete by M's sender replaces M by M with isDeleted set to true and
deletedAt set to the current time, content being kept. Every other field of M, every other
stored message, and every other part of the server state stay as they were. -/
theorem edit_delete_by_sender (env : Env) (st : ServerState) (M : Message) (c : String)
    (hM : M ∈ readMessages st.store) (hu : UniqueIds (readMessages st.store))
    (hw : env.writeMessagesOk = true) :
    (editMessage env st M.id M.senderId c).1 =
        { st with store := { st.store with messages := some (replaced (readMessages st.store) M
          { M with content := c, isEdited := true, editedAt := some env.now }) } } ∧
      (apiEditMessage env st.store M.id M.senderId c).1 =
        { st.store with messages := some (replaced (readMessages st.store) M
          { M with content := c, isEdited := true, editedAt := some env.now }) } ∧
      (deleteMessage env st M.id M.senderId).1 =
        { st with store := { st.store with messages := some (replaced (readMessages st.store) M
          { M with isDeleted := true, deletedAt := some env.now }) } } ∧
      (apiDeleteMessage env st.store M.id M.senderId).1 =
        { st.store with messages := some (replaced (readMessages st.store) M
          { M with isDeleted := true, deletedAt := some env.now }) } ∧
      (∀ m ∈ readMessages st.store, m ≠ M →
        m ∈ readMessages (editMessage env st M.id M.senderId c).1.store ∧
        m ∈ readMessages (apiEditMessage env st.store M.id M.senderId c).1 ∧
        m ∈ readMessages (deleteMessage env st M.id M.senderId).1.store ∧
        m ∈ readMessages (apiDeleteMessage env st.store M.id M.senderId).1) ∧
      (readMessages (editMessage env st M.id M.senderId c).1.store).length =
        (readMessages st.store).length ∧
      (readMessages (deleteMessage env st M.id M.senderId).1.store).length =
        (readMessages st.store).length := by
  rw [editMessage_by_sender env st M c hM hu hw, apiEditMessage_by_sender env st.store M c hM hu hw,
    deleteMessage_by_sender env st M hM hu hw, apiDeleteMessage_by_sender env st.store M hM hu hw]
  refine ⟨rfl, rfl, rfl, rfl, ?_, ?_, ?_⟩
  · intro m hm hne
    simp only [readMessages, Option.getD_some]
    exact ⟨mem_replaced_of_ne _ _ _ _ hm hne, mem_replaced_of_ne _ _ _ _ hm hne,
      mem_replaced_of_ne _ _ _ _ hm hne, mem_replaced_of_ne _ _ _ _ hm hne⟩
  · simp [readMessages, replaced]
  · simp [readMessages, replaced]

theorem edit_delete_by_sender_witness :
    exMessage "m1" "alice" "bob" "hello" 1000 false ∈ readMessages exState.store ∧
      UniqueIds (readMessages exState.store) ∧ exEnv.writeMessagesOk = true ∧
      (apiEditMessage exEnv exState.store "m1" "alice" "changed").1 =
        { exState.store with messages := some [
          { exMessage "m1" "alice" "bob" "hello" 1000 false with
            content := "changed", isEdited := true, editedAt := some 2000 }] } :=
  ⟨by decide, by decide, by decide,
   (edit_delete_by_sender exEnv exState (exMessage "m1" "alice" "bob" "hello" 1000 false)
      "changed" (by decide) (by decide) (by decide)).2.1⟩

/-! ## Message delivery: edit and delete of a message already deleted -/

/-- C13, as stated, fails: the stored message m3 of alice was deleted at time 1500; a delete
by alice at time 2000 overwrites deletedAt, and an edit by alice overwrites content and
sets isEdited and editedAt, through the socket handlers as through the REST endpoints. -/
theorem deleted_edit_delete_not_noop :
    exMessage "m3" "alice" "bob" "bye" 1500 true ∈ readMessages exDeletedState.store ∧
      (exMessage "m3" "alice" "bob" "bye" 1500 true).isDeleted = true ∧
      readMessages (deleteMessage exEnv exDeletedState "m3" "alice").1.store =
        [exMessage "m1" "alice" "bob" "hello" 1000 false,
         { exMessage "m3" "alice" "bob" "bye" 1500 true with deletedAt := some 2000 }] ∧
      readMessages (apiDeleteMessage exEnv exDeletedState.store "m3" "alice").1 ≠
        readMessages exDeletedState.store ∧
      readMessages (editMessage exEnv exDeletedState "m3" "alice" "changed").1.store =
        [exMessage "m1" "alice" "bob" "hello" 1000 false,
         { exMessage "m3" "alice" "bob" "bye" 1500 true with
           content := "changed", isEdited := true, editedAt := some 2000 }] ∧
      readMessages (apiEditMessage exEnv exDeletedState.store "m3" "alice" "changed").1 ≠
        readMessages exDeletedState.store := by
  refine ⟨by decide, by decide, by decide, by decide, by decide, by decide⟩

theorem not_mem_filtered_of_deleted (s : Store) (A B : UserId) (M : Message)
    (hd : M.isDeleted = true) : M ∉ filteredMessages s A B := by
  simp [filteredMessages, inConversation, hd]

/-- After `M` is replaced by a record marked deleted, no message with the id of `M` passes
the history filter. -/
theorem filtered_replaced_deleted (s : Store) (l : List Message) (M N : Message) (A B : UserId)
    (hu : UniqueIds l) (hM : M ∈ l) (hN : N.isDeleted = true) :
    ∀ m ∈ filteredMessages { s with messages := some (replaced l M N) } A B, m.id ≠ M.id := by
  intro m hm hid
  have hm2 : m ∈ replaced l M N ∧ inConversation A B m = true := by
    simpa [filteredMessages, readMessages, List.mem_filter] using hm
  rcases mem_replaced_cases l M N m hm2.1 with h | ⟨hl, hne⟩
  · subst h
    have := hm2.2
    simp [inConversation, hN] at this
  · exact hne (eq_of_uniqueIds l M m hu hM hl hid)

/-- C13, amended: a stored message M already marked deleted (ids being unique, the write of
messages.json succeeding) is excluded from the answer of GET /api/messages and is still
found by its id; a delete by its sender keeps content, isEdited, editedAt and isDeleted and
overwrites deletedAt with the current time; an edit by its sender overwrites content, sets
isEdited and editedAt, and keeps isDeleted and deletedAt; after either, no message with the
id of M is in the answer of GET /api/messages. -/
theorem deleted_message_edit_delete (env : Env) (st : ServerState) (M : Message) (c : String)
    (hM : M ∈ readMessages st.store) (hu : UniqueIds (readMessages st.store))
    (hd : M.isDeleted = true) (hw : env.writeMessagesOk = true) :
    (∀ A B, M ∉ filteredMessages st.store A B) ∧
      (readMessages st.store).find? (fun m => m.id == M.id) = some M ∧
      readMessages (deleteMessage env st M.id M.senderId).1.store =
        replaced (readMessages st.store) M { M with deletedAt := some env.now } ∧
      readMessages (apiDeleteMessage env st.store M.id M.senderId).1 =
        replaced (readMessages st.store) M { M with deletedAt := some env.now } ∧
      readMessages (editMessage env st M.id M.senderId c).1.store =
        replaced (readMessages st.store) M
          { M with content := c, isEdited := true, editedAt := some env.now } ∧
      readMessages (apiEditMessage env st.store M.id M.senderId c).1 =
        replaced (readMessages st.store) M
          { M with content := c, isEdited := true, editedAt := some env.now } ∧
      (∀ A B, ∀ m ∈ filteredMessages (deleteMessage env st M.id M.senderId).1.store A B,
        m.id ≠ M.id) ∧
      (∀ A B, ∀ m ∈ filteredMessages (editMessage env st M.id M.senderId c).1.store A B,
        m.id ≠ M.id) := by
  have hdel : markDeleted env.now M = { M with deletedAt := some env.now } := by
    cases M
    simp only [markDeleted] at hd ⊢
    simp_all
  rw [editMessage_by_sender env st M c hM hu hw, apiEditMessage_by_sender env st.store M c hM hu hw,
    deleteMessage_by_sender env st M hM hu hw, apiDeleteMessage_by_sender env st.store M hM hu hw]
  refine ⟨fun A B => not_mem_filtered_of_deleted _ A B M hd, find?_of_uniqueIds _ M hu hM,
    ?_, ?_, rfl, rfl, ?_, ?_⟩
  · simp [readMessages, hdel]
  · simp [readMessages, hdel]
  · intro A B
    exact filtered_replaced_deleted st.store _ M _ A B hu hM rfl
  · intro A B
    exact filtered_replaced_deleted st.store _ M _ A B hu hM hd

theorem deleted_message_edit_delete_witness :
    exMessage "m3" "alice" "bob" "bye" 1500 true ∈ readMessages exDeletedState.store ∧
      UniqueIds (readMessages exDeletedState.store) ∧
      (exMessage "m3" "alice" "bob" "bye" 1500 true).isDeleted = true ∧
      exEnv.writeMessagesOk = true ∧
      readMessages (deleteMessage exEnv exDeletedState "m3" "alice").1.store =
        replaced (readMessages exDeletedState.store) (exMessage "m3" "alice" "bob" "bye" 1500 true)
          { exMessage "m3" "alice" "bob" "bye" 1500 true with deletedAt := some 2000 } :=
  ⟨by decide, by decide, by decide, by decide,
   (deleted_message_edit_delete exEnv exDeletedState (exMessage "m3" "alice" "bob" "bye" 1500 true)
      "changed" (by decide) (by decide) (by decide) (by decide)).2.2.1⟩

/-! ## Contacts: repeated `addContact` -/

theorem readContacts_set (s : Store) (c : JsObject (List UserId)) :
    readContacts { s with contacts := some c } = c := rfl

/-- With both directions present, `addContact(A, B)` leaves the store as it is. -/
theorem addContact_fixed (env : Env) (t : Store) (A B : UserId)
    (hAB : lists t A B) (hBA : lists t B A) : (addContact env t A B).1 = t := by
  unfold lists at hAB hBA
  rw [addContact_eq, objPush_fixed _ A B hAB]
  simp only [Option.some_bind]
  rw [objPush_fixed _ B A hBA]
  simp only []
  split
  · cases hc : t.contacts with
    | none => simp [readContacts, hc, objList, objGet] at hAB
    | some c =>
      have hr : readContacts t = c := by simp [readContacts, hc]
      rw [hr]
      cases t
      simp_all
  · rfl

/-- Both directions of the edge are listed after `addContact(A, B)` exactly when they were
listed before or the call succeeded. -/
theorem addContact_lists_iff (env : Env) (s : Store) (A B : UserId) :
    (lists (addContact env s A B).1 A B ∧ lists (addContact env s A B).1 B A) ↔
      (lists s A B ∧ lists s B A) ∨ (addContact env s A B).2 = true := by
  constructor
  · intro h
    rcases addContact_cases env s A B with h0 | h0
    · rw [h0] at h
      exact Or.inl h
    · exact Or.inr h0
  · rintro (h | h)
    · rw [addContact_fixed env s A B h.1 h.2]
      exact h
    · exact addContact_lists env s A B h

/-- C14: applying addContact(A, B) a second time leaves the store the first application
wrote; when the collection read already lists B under A and A under B, addContact(A, B)
leaves the store unchanged; and a contact list without duplicates before addContact(A, B)
has none afterwards. -/
theorem addContact_idempotent (env1 env2 : Env) (s : Store) (A B : UserId)
    (hw : env1.writeContactsOk = true) :
    (addContact env2 (addContact env1 s A B).1 A B).1 = (addContact env1 s A B).1 ∧
      (lists s A B → lists s B A → (addContact env2 s A B).1 = s) ∧
      (∀ X, (objList (readContacts s) X).Nodup →
        (objList (readContacts (addContact env1 s A B).1) X).Nodup) := by
  refine ⟨?_, addContact_fixed env2 s A B, ?_⟩
  · cases h1 : (addContact env1 s A B).2 with
    | true =>
      have hl := addContact_lists env1 s A B h1
      exact addContact_fixed env2 _ A B hl.1 hl.2
    | false =>
      have h2 : (addContact env2 s A B).2 = false := by
        cases h2 : (addContact env2 s A B).2 with
        | false => rfl
        | true =>
          obtain ⟨hA, hB, _⟩ := (addContact_true_iff env2 s A B).mp h2
          have := (addContact_true_iff env1 s A B).mpr ⟨hA, hB, hw⟩
          rw [h1] at this
          exact absurd this (by decide)
      rw [addContact_false env1 s A B h1]
      exact addContact_false env2 s A B h2
  · intro X hX
    rcases addContact_cases env1 s A B with h | h
    · rw [h]
      exact hX
    · obtain ⟨c4, h4, _, hnd⟩ := addContact_true env1 s A B h
      rw [h4, readContacts_set]
      exact hnd X hX

theorem addContact_idempotent_witness :
    exEnv.writeContactsOk = true ∧
      (addContact exEnv exStore "alice" "bob").1.contacts =
        some [("alice", ["dave", "bob"]), ("bob", ["alice"])] ∧
      (addContact exEnv (addContact exEnv exStore "alice" "bob").1 "alice" "bob").1 =
        (addContact exEnv exStore "alice" "bob").1 :=
  ⟨by decide, by decide, (addContact_idempotent exEnv exEnv exStore "alice" "bob" (by decide)).1⟩

/-! ## Contacts: symmetry -/

/-- Who lists whom after a filter-out step that did not throw. -/
theorem mem_objFilterOut (c c2 : JsObject (List UserId)) (k X : String) (x Y : UserId)
    (h : objFilterOut c k x = some c2) :
    Y ∈ objList c2 X ↔ Y ∈ objList c X ∧ ¬ (X = k ∧ Y = x) := by
  unfold objFilterOut at h
  rcases objRead_cases c k with ⟨l, hg, hr⟩ | ⟨hg, hi, hr⟩ | ⟨hg, hi, hr⟩
  · rw [hr] at h
    simp only [Option.some.injEq] at h
    subst h
    have hsome : (objGet c k).isSome = true := by simp [hg]
    by_cases hX : X = k
    · subst hX
      rw [objList_objSet_same _ _ _ (Or.inl hsome)]
      simp [objList, hg]
    · simp [hX, objList_objSet_other _ _ _ _ hX]
  · rw [hr] at h
    simp at h
  · rw [hr] at h
    simp only [Option.some.injEq] at h
    subst h
    by_cases hX : X = k
    · subst hX
      simp [objList, hg]
    · simp [hX]

/-- A check over the entries that suffices for symmetry. -/
theorem symmetric_of_entries (c : JsObject (List UserId))
    (h : ∀ e ∈ c, ∀ y ∈ e.2, e.1 ∈ objList c y) : SymmetricContacts c := by
  intro X Y hY
  unfold objList at hY
  cases hg : objGet c X with
  | none => simp [hg] at hY
  | some l =>
    simp [hg] at hY
    exact h (X, l) (objGet_mem c X l hg) Y hY

theorem addContact_symmetric (env : Env) (s : Store) (A B : UserId)
    (h : SymmetricContacts (readContacts s)) :
    SymmetricContacts (readContacts (addContact env s A B).1) := by
  rcases addContact_cases env s A B with h0 | h0
  · rw [h0]
    exact h
  · obtain ⟨c4, h4, hmem, _⟩ := addContact_true env s A B h0
    rw [h4, readContacts_set]
    intro X Y hY
    rw [hmem] at hY ⊢
    rcases hY with h1 | ⟨h1, h2⟩ | ⟨h1, h2⟩
    · exact Or.inl (h X Y h1)
    · exact Or.inr (Or.inr ⟨h2, h1⟩)
    · exact Or.inr (Or.inl ⟨h2, h1⟩)

theorem removeContact_symmetric (c c1 c2 : JsObject (List UserId)) (U C : UserId)
    (h : SymmetricContacts c) (h1 : objFilterOut c U C = some c1)
    (h2 : objFilterOut c1 C U = some c2) : SymmetricContacts c2 := by
  intro X Y hY
  rw [mem_objFilterOut c1 c2 C _ U _ h2, mem_objFilterOut c c1 U _ C _ h1] at hY ⊢
  obtain ⟨⟨h3, h4⟩, h5⟩ := hY
  refine ⟨⟨h X Y h3, ?_⟩, ?_⟩
  · rintro ⟨rfl, rfl⟩
    exact h5 ⟨rfl, rfl⟩
  · rintro ⟨rfl, rfl⟩
    exact h4 ⟨rfl, rfl⟩

theorem apiAddContact_store (env : Env) (s : Store) (A B : UserId) :
    (apiAddContact env s A B).1 = (addContact env s A B).1 := by
  unfold apiAddContact
  split <;> simp_all

/-- The sibling writers keep the contacts collection symmetric: `addContact`, also through
`POST /api/contacts/add`, and `POST /api/contacts/remove`. -/
theorem add_remove_keep_symmetry (env : Env) (s : Store) (U C : UserId)
    (h : SymmetricContacts (readContacts s)) :
    SymmetricContacts (readContacts (addContact env s U C).1) ∧
      SymmetricContacts (readContacts (apiAddContact env s U C).1) ∧
      SymmetricContacts (readContacts (apiRemoveContact env s U C).1) := by
  have hadd := addContact_symmetric env s U C h
  refine ⟨hadd, ?_, ?_⟩
  · rw [apiAddContact_store]
    exact hadd
  · unfold apiRemoveContact writeContacts
    cases h1 : objFilterOut (readContacts s) U C with
    | none => simpa using h
    | some c1 =>
      cases h2 : objFilterOut c1 C U with
      | none => simpa [h2] using h
      | some c2 =>
        have hs := removeContact_symmetric _ c1 c2 U C h h1 h2
        by_cases hw : env.writeContactsOk = true
        · simpa [h2, hw, readContacts] using hs
        · simpa [h2, hw] using h

/-- C15 fails on POST /api/block: alice and bob list each other; after alice blocks bob
(answer 200) alice's list is empty while bob's list still holds alice, so the contacts
collection is no longer symmetric. -/
theorem apiBlock_breaks_symmetry :
    SymmetricContacts (readContacts exSymmetricStore) ∧
      (apiBlock exEnv exSymmetricStore "alice" "bob").2.status = 200 ∧
      readContacts (apiBlock exEnv exSymmetricStore "alice" "bob").1 =
        [("alice", []), ("bob", ["alice"])] ∧
      ¬ SymmetricContacts (readContacts (apiBlock exEnv exSymmetricStore "alice" "bob").1) := by
  refine ⟨symmetric_of_entries _ (by decide), by decide, by decide, ?_⟩
  intro h
  have h2 := h "bob" "alice" (by decide)
  revert h2
  decide

/-! ## Contacts: self-edges and failed sends -/

/-- A check over the entries that suffices for the absence of self-edges. -/
theorem noSelfEdges_of_entries (c : JsObject (List UserId))
    (h : ∀ e ∈ c, e.1 ∉ e.2) : NoSelfEdges c := by
  intro X hX
  unfold objList at hX
  cases hg : objGet c X with
  | none => simp [hg] at hX
  | some l =>
    simp [hg] at hX
    exact h (X, l) (objGet_mem c X l hg) hX

theorem noSelfEdges_addContact (env : Env) (s : Store) (A B : UserId)
    (hns : NoSelfEdges (readContacts s)) (hne : A ≠ B) :
    NoSelfEdges (readContacts (addContact env s A B).1) := by
  rcases addContact_cases env s A B with h0 | h0
  · rw [h0]
    exact hns
  · obtain ⟨c4, h4, hmem, _⟩ := addContact_true env s A B h0
    rw [h4, readContacts_set]
    intro X hX
    rw [hmem] at hX
    rcases hX with h | ⟨h1, h2⟩ | ⟨h1, h2⟩
    · exact hns X h
    · exact hne (h1.symm.trans h2)
    · exact hne (h2.symm.trans h1)

/-- C16, as stated, fails: alice's contact list holds no self-edge; after addContact(alice,
alice), after POST /api/contacts/add with both ids alice, and after a send-message of
alice to herself, alice is listed in her own contact list. -/
theorem addContact_self_edge :
    NoSelfEdges (readContacts exStore) ∧
      lists (addContact exEnv exStore "alice" "alice").1 "alice" "alice" ∧
      lists (apiAddContact exEnv exStore "alice" "alice").1 "alice" "alice" ∧
      lists (sendMessage exEnv exState "sock-a" exSelfSend).1.store "alice" "alice" := by
  refine ⟨noSelfEdges_of_entries _ (by decide), by decide, by decide, by decide⟩

/-- C16, amended: on a contacts collection without self-edges, addContact(A, B), POST
/api/contacts/add and send-message from A to B create no self-edge when A and B differ; the
server has no guard for A = B, where addContact(A, A) lists A under A exactly when its write
succeeds and the read of the collection under A yields no inherited member. -/
theorem no_self_edges_distinct (env : Env) (st : ServerState) (socket : SocketId)
    (data : SendMessageData)
    (hns : NoSelfEdges (readContacts st.store)) (hne : data.senderId ≠ data.receiverId) :
    NoSelfEdges (readContacts (addContact env st.store data.senderId data.receiverId).1) ∧
      NoSelfEdges (readContacts (apiAddContact env st.store data.senderId data.receiverId).1) ∧
      NoSelfEdges (readContacts (sendMessage env st socket data).1.store) ∧
      (∀ A, lists (addContact env st.store A A).1 A A ↔
        env.writeContactsOk = true ∧ readsInherited (readContacts st.store) A = false) := by
  have hadd := noSelfEdges_addContact env st.store data.senderId data.receiverId hns hne
  refine ⟨hadd, ?_, ?_, ?_⟩
  · rw [apiAddContact_store]; exact hadd
  · have hc := sendMessage_contacts_eq env st socket data
    have hr : readContacts (sendMessage env st socket data).1.store =
        if isUserBlocked st.store data.receiverId data.senderId then readContacts st.store
        else readContacts (addContact env st.store data.senderId data.receiverId).1 := by
      unfold readContacts
      rw [hc]
      split <;> rfl
    rw [hr]
    split
    · exact hns
    · exact hadd
  · intro A
    constructor
    · intro hl
      rcases (addContact_lists_iff env st.store A A).mp ⟨hl, hl⟩ with h0 | h0
      · exact absurd h0.1 (hns A)
      · obtain ⟨hA, _, hw⟩ := (addContact_true_iff env st.store A A).mp h0
        exact ⟨hw, hA⟩
    · rintro ⟨hw, hA⟩
      exact (addContact_lists env st.store A A
        ((addContact_true_iff env st.store A A).mpr ⟨hA, hA, hw⟩)).1

theorem no_self_edges_distinct_witness :
    NoSelfEdges (readContacts exState.store) ∧ (exSend "bob").senderId ≠ (exSend "bob").receiverId ∧
      NoSelfEdges (readContacts (sendMessage exEnv exState "sock-a" (exSend "bob")).1.store) ∧
      lists (addContact exEnv exState.store "carol" "carol").1 "carol" "carol" :=
  ⟨noSelfEdges_of_entries _ (by decide), by decide,
   (no_self_edges_distinct exEnv exState "sock-a" (exSend "bob")
      (noSelfEdges_of_entries _ (by decide)) (by decide)).2.2.1,
   ((no_self_edges_distinct exEnv exState "sock-a" (exSend "bob")
      (noSelfEdges_of_entries _ (by decide)) (by decide)).2.2.2 "carol").mpr
      ⟨by decide, by decide⟩⟩

/-- C17, as stated, fails: alice sends to bob, who does not block her, and the write of
messages.json fails; the message is not persisted, nothing is emitted, and yet the contacts
collection has been rewritten with the edge in both directions. -/
theorem sendMessage_failed_contacts_changed :
    exEnvFail.writeMessagesOk = false ∧
      (sendMessage exEnvFail exState "sock-a" (exSend "bob")).1.store.messages =
        exState.store.messages ∧
      (sendMessage exEnvFail exState "sock-a" (exSend "bob")).2 = [] ∧
      exState.store.contacts = some [("alice", ["dave"])] ∧
      (sendMessage exEnvFail exState "sock-a" (exSend "bob")).1.store.contacts =
        some [("alice", ["dave", "bob"]), ("bob", ["alice"])] ∧
      (sendMessage exEnvFail exState "sock-a" (exSend "bob")).1.store.contacts ≠
        exState.store.contacts := by
  refine ⟨by decide, by decide, by decide, by decide, by decide, by decide⟩

/-- C17, amended: when the sender is blocked the send-message handler leaves the contacts
collection as it was; when the sender is not blocked, addContact runs before the message
is written and is not undone, so after a failed write of messages.json the messages
collection is as before while the contacts collection is the one addContact left, with
both directions of the edge exactly when they were there before or the contacts write
succeeded and neither read of the collection yielded an inherited member. -/
theorem sendMessage_contacts_on_failure (env : Env) (st : ServerState) (socket : SocketId)
    (data : SendMessageData) :
    (data.senderId ∈ objList (readBlocked st.store) data.receiverId →
        (sendMessage env st socket data).1.store.contacts = st.store.contacts) ∧
      (data.senderId ∉ objList (readBlocked st.store) data.receiverId →
        env.writeMessagesOk = false →
        (sendMessage env st socket data).1.store.messages = st.store.messages ∧
        (sendMessage env st socket data).1.store.contacts =
          (addContact env st.store data.senderId data.receiverId).1.contacts ∧
        ((lists (sendMessage env st socket data).1.store data.senderId data.receiverId ∧
          lists (sendMessage env st socket data).1.store data.receiverId data.senderId) ↔
          (lists st.store data.senderId data.receiverId ∧
            lists st.store data.receiverId data.senderId) ∨
          (env.writeContactsOk = true ∧
            readsInherited (readContacts st.store) data.senderId = false ∧
            readsInherited (readContacts st.store) data.receiverId = false))) := by
  have hc := sendMessage_contacts_eq env st socket data
  constructor
  · intro hb
    rw [hc, (isUserBlocked_iff _ _ _).mpr hb]
    rfl
  · intro hnb hw
    have hb := not_blocked_eq st.store data.receiverId data.senderId hnb
    have hc2 : (sendMessage env st socket data).1.store.contacts =
        (addContact env st.store data.senderId data.receiverId).1.contacts := by
      rw [hc, hb]; rfl
    refine ⟨?_, hc2, ?_⟩
    · simp [sendMessage, hb, writeMessages, hw, addContact_messages]
    · rw [lists_of_contacts_eq _ _ _ _ hc2, lists_of_contacts_eq _ _ _ _ hc2,
        addContact_lists_iff, addContact_true_iff]
      constructor
      · rintro (h | ⟨hA, hB, hcw⟩)
        · exact Or.inl h
        · exact Or.inr ⟨hcw, hA, hB⟩
      · rintro (h | ⟨hcw, hA, hB⟩)
        · exact Or.inl h
        · exact Or.inr ⟨hA, hB, hcw⟩

theorem sendMessage_contacts_on_failure_witness :
    (exSend "bob").senderId ∉ objList (readBlocked exState.store) (exSend "bob").receiverId ∧
      exEnvFail.writeMessagesOk = false ∧
      (sendMessage exEnvFail exState "sock-a" (exSend "bob")).1.store.contacts =
        (addContact exEnvFail exState.store "alice" "bob").1.contacts ∧
      lists (sendMessage exEnvFail exState "sock-a" (exSend "bob")).1.store "alice" "bob" :=
  ⟨by decide, by decide,
   ((sendMessage_contacts_on_failure exEnvFail exState "sock-a" (exSend "bob")).2
      (by decide) (by decide)).2.1,
   ((((sendMessage_contacts_on_failure exEnvFail exState "sock-a" (exSend "bob")).2
      (by decide) (by decide)).2.2).mpr (Or.inr ⟨by decide, by decide, by decide⟩)).1⟩

/-! ## Read receipts, typing and signaling relay -/

/-- C18: for a stored message M (ids being unique, the write of messages.json succeeding)
and any requesting connection, the message-read handler replaces M by M with read set to
true and readAt set to the current time, keeps every other field of M, every other stored
message and the rest of the server state, and broadcasts message-read-update carrying the
id to every connection but the requesting one; for an id that no stored message has, the
state is unchanged and nothing is emitted. -/
theorem messageRead_effect (env : Env) (st : ServerState) (socket : SocketId) (M : Message)
    (hM : M ∈ readMessages st.store) (hu : UniqueIds (readMessages st.store))
    (hw : env.writeMessagesOk = true) :
    messageRead env st socket M.id =
        ({ st with store := { st.store with messages := some (replaced (readMessages st.store) M
            { M with read := true, readAt := some env.now }) } },
          [⟨.allExcept socket, .messageReadUpdate M.id⟩]) ∧
      (∀ m ∈ readMessages st.store, m ≠ M →
        m ∈ readMessages (messageRead env st socket M.id).1.store) ∧
      (∀ e ∈ (messageRead env st socket M.id).2, e.payload.event = "message-read-update") ∧
      (∀ id, (∀ m ∈ readMessages st.store, m.id ≠ id) →
        messageRead env st socket id = (st, [])) := by
  have hf := find?_of_uniqueIds _ M hu hM
  have hmf := modifyFirst_eq_replaced _ M (markRead env.now) hu hM
  have hres : messageRead env st socket M.id =
      ({ st with store := { st.store with messages := some (replaced (readMessages st.store) M
          { M with read := true, readAt := some env.now }) } },
        [⟨.allExcept socket, .messageReadUpdate M.id⟩]) := by
    simp [messageRead, hf, writeMessages, hw, hmf, markRead]
  refine ⟨hres, ?_, ?_, ?_⟩
  · intro m hm hne
    rw [hres]
    simp only [readMessages, Option.getD_some]
    exact mem_replaced_of_ne _ _ _ _ hm hne
  · intro e he
    rw [hres] at he
    simp at he
    subst he
    rfl
  · intro id hid
    have hnone := (find?_id_none _ id).mpr hid
    simp [messageRead, hnone]

theorem messageRead_effect_witness :
    exMessage "m1" "alice" "bob" "hello" 1000 false ∈ readMessages exState.store ∧
      UniqueIds (readMessages exState.store) ∧ exEnv.writeMessagesOk = true ∧
      messageRead exEnv exState "sock-c" "m1" =
        ({ exState with store := { exState.store with messages := some [
            { exMessage "m1" "alice" "bob" "hello" 1000 false with
              read := true, readAt := some 2000 }] } },
          [⟨.allExcept "sock-c", .messageReadUpdate "m1"⟩]) :=
  ⟨by decide, by decide, by decide,
   (messageRead_effect exEnv exState "sock-c" (exMessage "m1" "alice" "bob" "hello" 1000 false)
      (by decide) (by decide) (by decide)).1⟩

/-- C19 fails on the sender id: alice registered on connection sock-a and bob is present on
sock-b; a typing event for bob sent on sock-a yields one user-typing notification to sock-b
with the same isTyping value and leaves the server state unchanged, but its senderId is
undefined, not alice, because the handler reads socket.userId, which is never assigned. -/
theorem typing_sender_undefined :
    objGet exAliceOnline.userSocketMap "alice" = some "sock-a" ∧
      typing exAliceOnline (newSocket "sock-a") { receiverId := "bob", isTyping := true } =
        (exAliceOnline, [⟨.socket "sock-b", .userTyping none true⟩]) ∧
      (∀ e ∈ (typing exAliceOnline (newSocket "sock-a")
          { receiverId := "bob", isTyping := true }).2,
        e.payload ≠ .userTyping (some "alice") true) := by
  refine ⟨by decide, by decide, by decide⟩

/-- C20: the handlers offer, answer and ice-candidate, run on connection A, each emit exactly
one event, of the same name, addressed to the handle given in the field to (by socket.to,
which leaves out the emitting connection itself); it carries the received offer, answer or
candidate unchanged and A's handle in the field from (the offer also its roomId), and the
server state is unchanged. -/
theorem relay_pass_through (st : ServerState) (A : SocketId) (o : OfferData) (a : AnswerData)
    (c : IceCandidateData) :
    offer st A o = (st, [⟨.roomExcept o.toId A, .offer o.offer A o.roomId⟩]) ∧
      answer st A a = (st, [⟨.roomExcept a.toId A, .answer a.answer A⟩]) ∧
      iceCandidate st A c = (st, [⟨.roomExcept c.toId A, .iceCandidate c.candidate A⟩]) ∧
      (∀ e ∈ (offer st A o).2, e.payload.event = "offer") ∧
      (∀ e ∈ (answer st A a).2, e.payload.event = "answer") ∧
      (∀ e ∈ (iceCandidate st A c).2, e.payload.event = "ice-candidate") ∧
      (offer st A o).2.length = 1 ∧ (answer st A a).2.length = 1 ∧
      (iceCandidate st A c).2.length = 1 := by
  refine ⟨rfl, rfl, rfl, ?_, ?_, ?_, rfl, rfl, rfl⟩
  · intro e he
    simp [offer] at he
    subst he
    rfl
  · intro e he
    simp [answer] at he
    subst he
    rfl
  · intro e he
    simp [iceCandidate] at he
    subst he
    rfl

/-! ## Calls: what the server forwards -/

/-- With an entry `h` for `toId`, the handlers of accept-call, reject-call and end-call each
push their notification to `h`. -/
theorem serverOn_forward (st : ServerState) (socket : SocketId) (toId : UserId) (h : SocketId)
    (hne : HandlesNonEmpty st.userSocketMap) (hg : objGet st.userSocketMap toId = some h) :
    serverOn st socket (.acceptCall toId) = (st, [⟨.socket h, .callAccepted socket⟩]) ∧
      serverOn st socket (.rejectCall toId) = (st, [⟨.socket h, .callRejected⟩]) ∧
      serverOn st socket (.endCall toId) = (st, [⟨.socket h, .callEnded⟩]) := by
  have hr := roomOf_own st.userSocketMap toId h hne hg
  simp [serverOn, onAcceptCall, onRejectCall, onEndCall, hr]

/-- With an entry `h` for the receiver, the start-call handler pushes incoming-call to `h`. -/
theorem onStartCall_own (st : ServerState) (socket : SocketId) (data : StartCallData)
    (h : SocketId) (hne : HandlesNonEmpty st.userSocketMap)
    (hg : objGet st.userSocketMap data.receiverId = some h) :
    onStartCall st socket data =
      (st, [⟨.socket h, .incomingCall socket data.fromUserId data.callType data.callerName⟩]) := by
  have hr := roomOf_own st.userSocketMap data.receiverId h hne hg
  simp [onStartCall, hr]

/-- No call handler of the server changes the server state. -/
theorem serverOn_state (st : ServerState) (socket : SocketId) (e : ClientEmit) :
    (serverOn st socket e).1 = st := by
  cases e <;> simp only [serverOn, onStartCall, onAcceptCall, onRejectCall, onEndCall] <;>
    split <;> rfl

/-! ## Calls: busy guard and dialling -/

/-- C21: when the client already holds a call session, handleIncomingCall emits exactly one
reject-call addressed to the caller of the notification and leaves the whole client state,
the existing session and the call window included, as it was; the server forwards the
reject-call as call-rejected to the caller's connection when the caller is present. -/
theorem handleIncomingCall_busy (cs : ClientState) (data : IncomingCallData) (c : CurrentCall)
    (hc : cs.currentCall = some c) :
    handleIncomingCall cs data = (cs, [.rejectCall data.fromUserId]) ∧
      (handleIncomingCall cs data).1.currentCall = some c ∧
      (handleIncomingCall cs data).1.callStatus = cs.callStatus ∧
      (handleIncomingCall cs data).1.callModalVisible = cs.callModalVisible ∧
      (∀ e ∈ (handleIncomingCall cs data).2, e.event = "reject-call") ∧
      (∀ (st : ServerState) (socket h : SocketId), HandlesNonEmpty st.userSocketMap →
        objGet st.userSocketMap data.fromUserId = some h →
        (handleIncomingCall cs data).2.map (fun e => serverOn st socket e) =
          [(st, [⟨.socket h, .callRejected⟩])]) := by
  have hres : handleIncomingCall cs data = (cs, [.rejectCall data.fromUserId]) := by
    simp [handleIncomingCall, hc]
  rw [hres]
  refine ⟨rfl, hc, rfl, rfl, ?_, ?_⟩
  · intro e he
    simp at he
    subst he
    rfl
  · intro st socket h hne hg
    simp [(serverOn_forward st socket data.fromUserId h hne hg).2.1]

theorem handleIncomingCall_busy_witness :
    (exInCall "carol" "active").currentCall =
        some { type := "video", withUser := "carol", status := "active",
               callerSocket := none, localStream := none } ∧
      handleIncomingCall (exInCall "carol" "active") ⟨"sock-a", "alice", "video", "alice"⟩ =
        (exInCall "carol" "active", [.rejectCall "alice"]) :=
  ⟨rfl, (handleIncomingCall_busy (exInCall "carol" "active") ⟨"sock-a", "alice", "video", "alice"⟩
    { type := "video", withUser := "carol", status := "active",
      callerSocket := none, localStream := none } rfl).1⟩
/-- C22, as stated, fails in its conclusion: alice's page and carol's page, both idle, each
start a video call to bob; both pages then hold a session in the state calling with bob, and
the server, which keeps no sessions, forwards both start-call events as incoming-call to
bob's connection, the second one also after bob's page took the first and holds a session
of its own. Bob is the subject of two non-terminal sessions at once. -/
theorem startCall_two_callers :
    (startCall true (exIdleClientOf "alice") (some "bob") "video").1.currentCall =
        some { type := "video", withUser := "bob", status := "calling", callerSocket := none,
               localStream := some { withSound := true, withVideo := true } } ∧
      (startCall true (exIdleClientOf "carol") (some "bob") "video").1.currentCall =
        some { type := "video", withUser := "bob", status := "calling", callerSocket := none,
               localStream := some { withSound := true, withVideo := true } } ∧
      NonTerminal "calling" ∧
      (startCall true (exIdleClientOf "alice") (some "bob") "video").2.map
          (fun e => serverOn exThreeOnline "sock-a" e) =
        [(exThreeOnline, [⟨.socket "sock-b", .incomingCall "sock-a" "alice" "video" "alice"⟩])] ∧
      ((handleIncomingCall exIdleClient ⟨"sock-a", "alice", "video", "alice"⟩).1.currentCall =
        some { type := "video", withUser := "alice", status := "incoming",
               callerSocket := some "sock-a", localStream := none }) ∧
      (startCall true (exIdleClientOf "carol") (some "bob") "video").2.map
          (fun e => serverOn exThreeOnline "sock-c" e) =
        [(exThreeOnline, [⟨.socket "sock-b", .incomingCall "sock-c" "carol" "video" "carol"⟩])] := by
  refine ⟨by decide, by decide, by decide, by decide, by decide, by decide⟩

/-- C22, amended: when the page already holds a call session, startCall emits nothing, so no
start-call reaches the server and the server pushes no incoming-call to anyone; the session
held is the same afterwards, and the only change to the client state is the error
notification, so a page holds at most one session of its own. The server has no busy
check: it forwards every start-call whose receiver is present and keeps its state, so a
second start-call for the same receiver, from any connection, is forwarded like the
first. -/
theorem startCall_busy (mediaOk : Bool) (cs : ClientState) (userId : Option UserId)
    (callType : String) (c : CurrentCall) (hc : cs.currentCall = some c) :
    (startCall mediaOk cs userId callType).2 = [] ∧
      (startCall mediaOk cs userId callType).1.currentCall = some c ∧
      ((startCall mediaOk cs userId callType).1 = showNotification cs .alreadyInCall ∨
        (startCall mediaOk cs userId callType).1 = showNotification cs .chooseContact) ∧
      (∀ (st : ServerState) (socket : SocketId),
        ((startCall mediaOk cs userId callType).2.map
          (fun e => (serverOn st socket e).2)).flatten = []) ∧
      (∀ (st : ServerState) (s1 s2 h : SocketId) (d1 d2 : StartCallData),
        HandlesNonEmpty st.userSocketMap → objGet st.userSocketMap d1.receiverId = some h →
        d2.receiverId = d1.receiverId →
        serverOn st s1 (.startCall d1) =
          (st, [⟨.socket h, .incomingCall s1 d1.fromUserId d1.callType d1.callerName⟩]) ∧
        serverOn (serverOn st s1 (.startCall d1)).1 s2 (.startCall d2) =
          (st, [⟨.socket h, .incomingCall s2 d2.fromUserId d2.callType d2.callerName⟩])) := by
  have hsrv : ∀ (st : ServerState) (s1 s2 h : SocketId) (d1 d2 : StartCallData),
      HandlesNonEmpty st.userSocketMap → objGet st.userSocketMap d1.receiverId = some h →
      d2.receiverId = d1.receiverId →
      serverOn st s1 (.startCall d1) =
        (st, [⟨.socket h, .incomingCall s1 d1.fromUserId d1.callType d1.callerName⟩]) ∧
      serverOn (serverOn st s1 (.startCall d1)).1 s2 (.startCall d2) =
        (st, [⟨.socket h, .incomingCall s2 d2.fromUserId d2.callType d2.callerName⟩]) := by
    intro st s1 s2 h d1 d2 hne hg hd
    have h1 : serverOn st s1 (.startCall d1) =
        (st, [⟨.socket h, .incomingCall s1 d1.fromUserId d1.callType d1.callerName⟩]) :=
      onStartCall_own st s1 d1 h hne hg
    refine ⟨h1, ?_⟩
    rw [h1]
    exact onStartCall_own st s2 d2 h hne (hd ▸ hg)
  by_cases hu : truthy userId = true
  · have hres : startCall mediaOk cs userId callType = (showNotification cs .alreadyInCall, []) := by
      simp [startCall, hu, hc]
    rw [hres]
    exact ⟨rfl, hc, Or.inl rfl, fun _ _ => rfl, hsrv⟩
  · have hres : startCall mediaOk cs userId callType = (showNotification cs .chooseContact, []) := by
      simp [startCall, hu]
    rw [hres]
    exact ⟨rfl, hc, Or.inr rfl, fun _ _ => rfl, hsrv⟩

theorem startCall_busy_witness :
    (exInCall "carol" "active").currentCall =
        some { type := "video", withUser := "carol", status := "active",
               callerSocket := none, localStream := none } ∧
      (startCall true (exInCall "carol" "active") (some "alice") "video").2 = [] ∧
      HandlesNonEmpty exThreeOnline.userSocketMap ∧
      objGet exThreeOnline.userSocketMap "bob" = some "sock-b" ∧
      serverOn (serverOn exThreeOnline "sock-a" (.startCall ⟨"bob", "video", "alice", "alice"⟩)).1
          "sock-c" (.startCall ⟨"bob", "video", "carol", "carol"⟩) =
        (exThreeOnline, [⟨.socket "sock-b", .incomingCall "sock-c" "carol" "video" "carol"⟩]) :=
  ⟨rfl, (startCall_busy true (exInCall "carol" "active") (some "alice") "video"
    { type := "video", withUser := "carol", status := "active",
      callerSocket := none, localStream := none } rfl).1,
   by decide, by decide,
   ((startCall_busy true (exInCall "carol" "active") (some "alice") "video"
    { type := "video", withUser := "carol", status := "active",
      callerSocket := none, localStream := none } rfl).2.2.2.2 exThreeOnline "sock-a" "sock-c"
      "sock-b" ⟨"bob", "video", "alice", "alice"⟩ ⟨"bob", "video", "carol", "carol"⟩
      (by decide) (by decide) rfl).2⟩

/-- C23, as stated, fails: a start-call whose receiverId is "toString", for which the
presence table has no entry, is not dropped; the read of the table yields the inherited
member, which is truthy, and one incoming-call is emitted, addressed to that value. -/
theorem onStartCall_inherited :
    objGet exThreeOnline.userSocketMap "toString" = none ∧
      onStartCall exThreeOnline "sock-a" ⟨"toString", "video", "alice", "Alice"⟩ =
        (exThreeOnline,
          [⟨.inheritedValue "toString", .incomingCall "sock-a" "alice" "video" "Alice"⟩]) ∧
      (onStartCall exThreeOnline "sock-a" ⟨"toString", "video", "alice", "Alice"⟩).2 ≠ [] := by
  refine ⟨by decide, by decide, by decide⟩

/-- C23, amended: the start-call handler, with socket.io handles non-empty, pushes exactly
one incoming-call to the handle that the presence table holds for receiverId, carrying the
caller's handle as from, fromUserId, callerName and the same callType; with no entry for
receiverId it emits nothing when receiverId names no inherited member of the table object,
and one incoming-call addressed to the inherited member when it names one; the server
state is unchanged in every case. -/
theorem onStartCall_effect (st : ServerState) (socket : SocketId) (data : StartCallData)
    (hne : HandlesNonEmpty st.userSocketMap) :
    onStartCall st socket data =
        (st, match objGet st.userSocketMap data.receiverId with
          | some h => [⟨.socket h,
              .incomingCall socket data.fromUserId data.callType data.callerName⟩]
          | none =>
            if inheritedNames.contains data.receiverId then
              [⟨.inheritedValue data.receiverId,
                .incomingCall socket data.fromUserId data.callType data.callerName⟩]
            else []) ∧
      (∀ e ∈ (onStartCall st socket data).2, e.payload.event = "incoming-call") ∧
      (objGet st.userSocketMap data.receiverId = none →
        inheritedNames.contains data.receiverId = false → (onStartCall st socket data).2 = []) ∧
      (onStartCall st socket data).2.length ≤ 1 := by
  have hres : onStartCall st socket data =
      (st, match objGet st.userSocketMap data.receiverId with
        | some h => [⟨.socket h,
            .incomingCall socket data.fromUserId data.callType data.callerName⟩]
        | none =>
          if inheritedNames.contains data.receiverId then
            [⟨.inheritedValue data.receiverId,
              .incomingCall socket data.fromUserId data.callType data.callerName⟩]
          else []) := by
    unfold onStartCall
    cases hg : objGet st.userSocketMap data.receiverId with
    | some h =>
      simp only [roomOf_own _ _ h hne hg]
    | none =>
      simp only [roomOf_absent _ _ hg]
      by_cases hi : inheritedNames.contains data.receiverId = true
      · simp only [hi, if_true]
      · have hi2 : inheritedNames.contains data.receiverId = false := by simpa using hi
        simp only [hi2]
        rfl
  refine ⟨hres, ?_, ?_, ?_⟩
  · intro e he
    rw [hres] at he
    cases hg : objGet st.userSocketMap data.receiverId with
    | none =>
      by_cases hi : inheritedNames.contains data.receiverId = true
      · simp only [hg, hi, if_true, List.mem_singleton] at he
        subst he
        rfl
      · have hi2 : inheritedNames.contains data.receiverId = false := by simpa using hi
        simp only [hg, hi2] at he
        simp at he
    | some h =>
      simp only [hg, List.mem_singleton] at he
      subst he
      rfl
  · intro hg hi
    rw [hres]
    simp only [hg, hi]
    rfl
  · rw [hres]
    cases hg : objGet st.userSocketMap data.receiverId with
    | none =>
      by_cases hi : inheritedNames.contains data.receiverId = true
      · simp only [hi, if_true]
        exact Nat.le_refl 1
      · have hi2 : inheritedNames.contains data.receiverId = false := by simpa using hi
        simp only [hi2]
        exact Nat.zero_le 1
    | some h => simp

theorem onStartCall_effect_witness :
    HandlesNonEmpty exThreeOnline.userSocketMap ∧
      onStartCall exThreeOnline "sock-a" ⟨"bob", "video", "alice", "Alice"⟩ =
        (exThreeOnline, [⟨.socket "sock-b", .incomingCall "sock-a" "alice" "video" "Alice"⟩]) :=
  ⟨by decide, (onStartCall_effect exThreeOnline "sock-a" ⟨"bob", "video", "alice", "Alice"⟩
    (by decide)).1⟩

/-! ## Calls: accept, reject and end -/

theorem endCall_some (cs : ClientState) (c : CurrentCall) (hc : cs.currentCall = some c) :
    (endCall cs).1.currentCall = none ∧
      (endCall cs).2 =
        if c.status == "active" || c.status == "calling" then [.endCall c.withUser] else [] := by
  simp [endCall, hc]

/-- C24, as stated, fails: from a session in Calling, and from one in Active, acceptCall
(media acquisition succeeding) emits accept-call addressed to the other user and sets the
status to active; it does not leave the Calling session unchanged. -/
theorem acceptCall_from_calling :
    (exInCall "alice" "calling").currentCall.map (fun c => c.status) = some "calling" ∧
      (acceptCall true (exInCall "alice" "calling")).2 = [.acceptCall "alice"] ∧
      (acceptCall true (exInCall "alice" "calling")).1.currentCall.map (fun c => c.status) =
        some "active" ∧
      (acceptCall true (exInCall "alice" "calling")).1 ≠ exInCall "alice" "calling" ∧
      (acceptCall true (exInCall "alice" "active")).2 = [.acceptCall "alice"] := by
  refine ⟨by decide, by decide, by decide, by decide, by decide⟩

/-- C24, amended: acceptCall tests only that a session exists. With no session it emits
nothing and leaves the state unchanged. With a session in any state, Ringing as well as
Calling or Active, and media acquisition succeeding, it emits exactly one accept-call
addressed to the other user of the session and the session becomes Active with the stream
attached; the server forwards it as call-accepted, carrying the accepting handle, to that
user's connection when present. When media acquisition fails in Ringing, the session is
torn down and nothing is emitted. -/
theorem acceptCall_effect (mediaOk : Bool) (cs : ClientState) :
    (cs.currentCall = none → acceptCall mediaOk cs = (cs, [])) ∧
      (∀ c, cs.currentCall = some c →
        (acceptCall true cs).2 = [.acceptCall c.withUser] ∧
        (acceptCall true cs).1.currentCall = some { c with
          status := "active"
          localStream := some { withSound := true, withVideo := c.type == "video" } } ∧
        (∀ (st : ServerState) (socket h : SocketId), HandlesNonEmpty st.userSocketMap →
          objGet st.userSocketMap c.withUser = some h →
          (acceptCall true cs).2.map (fun e => serverOn st socket e) =
            [(st, [⟨.socket h, .callAccepted socket⟩])]) ∧
        (c.status = "incoming" →
          (acceptCall false cs).2 = [] ∧ (acceptCall false cs).1.currentCall = none)) := by
  constructor
  · intro hc
    simp [acceptCall, hc]
  · intro c hc
    have hem : (acceptCall true cs).2 = [.acceptCall c.withUser] := by
      simp [acceptCall, hc, getUserMedia]
    refine ⟨hem, ?_, ?_, ?_⟩
    · simp only [acceptCall, hc, getUserMedia, if_true, showNotification]
      split <;> rfl
    · intro st socket h hne hg
      rw [hem]
      simp [(serverOn_forward st socket c.withUser h hne hg).1]
    · intro hs
      have hc2 : (showNotification cs .acceptFailed).currentCall = some c := by
        simp [showNotification, hc]
      have he := endCall_some _ c hc2
      have hacc : acceptCall false cs = endCall (showNotification cs .acceptFailed) := by
        simp [acceptCall, hc, getUserMedia]
      rw [hacc]
      refine ⟨?_, he.1⟩
      rw [he.2]
      simp [hs]

theorem acceptCall_effect_witness :
    (exInCall "alice" "incoming").currentCall =
        some { type := "video", withUser := "alice", status := "incoming",
               callerSocket := none, localStream := none } ∧
      (acceptCall true (exInCall "alice" "incoming")).2 = [.acceptCall "alice"] :=
  ⟨rfl, ((acceptCall_effect true (exInCall "alice" "incoming")).2
    { type := "video", withUser := "alice", status := "incoming",
      callerSocket := none, localStream := none } rfl).1⟩

/-- C25, as stated, fails in its last part: from a session in Calling, and from one in
Active, rejectCall does emit reject-call, followed by the end-call of endCall. -/
theorem rejectCall_from_calling :
    (exInCall "alice" "calling").currentCall.map (fun c => c.status) = some "calling" ∧
      (rejectCall (exInCall "alice" "calling")).2 = [.rejectCall "alice", .endCall "alice"] ∧
      (rejectCall (exInCall "alice" "active")).2 = [.rejectCall "alice", .endCall "alice"] := by
  refine ⟨by decide, by decide, by decide⟩

/-- C25, amended: rejectCall tests only that a session exists. From Ringing it emits
exactly one reject-call addressed to the caller and nothing else, and the session is torn
down (currentCall is null); the server forwards it as call-rejected to the caller's
connection when present. With no session it emits nothing and leaves the state unchanged.
From Calling or Active it emits reject-call followed by end-call, both addressed to the
other user, and tears the session down. -/
theorem rejectCall_effect (cs : ClientState) :
    (cs.currentCall = none → rejectCall cs = (cs, [])) ∧
      (∀ c, cs.currentCall = some c →
        (rejectCall cs).1.currentCall = none ∧
        (c.status = "incoming" → (rejectCall cs).2 = [.rejectCall c.withUser]) ∧
        (c.status = "calling" ∨ c.status = "active" →
          (rejectCall cs).2 = [.rejectCall c.withUser, .endCall c.withUser]) ∧
        (∀ (st : ServerState) (socket h : SocketId), HandlesNonEmpty st.userSocketMap →
          objGet st.userSocketMap c.withUser = some h →
          serverOn st socket (.rejectCall c.withUser) = (st, [⟨.socket h, .callRejected⟩]))) := by
  constructor
  · intro hc
    simp [rejectCall, hc]
  · intro c hc
    have he := endCall_some cs c hc
    have hem : (rejectCall cs).2 = [.rejectCall c.withUser] ++ (endCall cs).2 := by
      simp [rejectCall, hc]
    refine ⟨?_, ?_, ?_, ?_⟩
    · simp [rejectCall, hc, showNotification, he.1]
    · intro hs
      rw [hem, he.2]
      simp [hs]
    · intro hs
      rw [hem, he.2]
      rcases hs with hs | hs <;> simp [hs]
    · intro st socket h hne hg
      exact (serverOn_forward st socket c.withUser h hne hg).2.1

theorem rejectCall_effect_witness :
    (exInCall "alice" "incoming").currentCall =
        some { type := "video", withUser := "alice", status := "incoming",
               callerSocket := none, localStream := none } ∧
      (rejectCall (exInCall "alice" "incoming")).2 = [.rejectCall "alice"] :=
  ⟨rfl, (((rejectCall_effect (exInCall "alice" "incoming")).2
    { type := "video", withUser := "alice", status := "incoming",
      callerSocket := none, localStream := none } rfl).2.1) rfl⟩

/-- C26, as stated, fails for Ringing: from a session in the state incoming, endCall tears
the session down but emits no end-call. -/
theorem endCall_from_incoming :
    (exInCall "alice" "incoming").currentCall.map (fun c => c.status) = some "incoming" ∧
      (endCall (exInCall "alice" "incoming")).2 = [] ∧
      (endCall (exInCall "alice" "incoming")).1.currentCall = none := by
  refine ⟨by decide, by decide, by decide⟩

/-- C26, amended: from each of the states Calling, Ringing and Active, endCall tears down
the local session (currentCall is null, streams dropped, call window hidden). From Calling
and from Active it emits exactly one end-call addressed to the other participant, which the
server forwards as call-ended to that participant's connection when present; from Ringing
it emits nothing. -/
theorem endCall_effect (cs : ClientState) (c : CurrentCall) (hc : cs.currentCall = some c)
    (hs : NonTerminal c.status) :
    (endCall cs).1.currentCall = none ∧
      (endCall cs).1.localStream = none ∧ (endCall cs).1.remoteStream = none ∧
      (endCall cs).1.callModalVisible = false ∧
      (c.status = "calling" ∨ c.status = "active" → (endCall cs).2 = [.endCall c.withUser]) ∧
      (c.status = "incoming" → (endCall cs).2 = []) ∧
      (((c.status = "calling" ∨ c.status = "active") ∧ (endCall cs).2 = [.endCall c.withUser]) ∨
        (c.status = "incoming" ∧ (endCall cs).2 = [])) ∧
      (∀ (st : ServerState) (socket h : SocketId), HandlesNonEmpty st.userSocketMap →
        objGet st.userSocketMap c.withUser = some h →
        serverOn st socket (.endCall c.withUser) = (st, [⟨.socket h, .callEnded⟩])) := by
  have he := endCall_some cs c hc
  refine ⟨he.1, by simp [endCall, hc], by simp [endCall, hc], by simp [endCall], ?_, ?_, ?_, ?_⟩
  · intro h
    rw [he.2]
    rcases h with h | h <;> simp [h]
  · intro h
    rw [he.2]
    simp [h]
  · rw [he.2]
    rcases hs with h | h | h <;> simp [h]
  · intro st socket h hne hg
    exact (serverOn_forward st socket c.withUser h hne hg).2.2

theorem endCall_effect_witness :
    (exInCall "alice" "active").currentCall =
        some { type := "video", withUser := "alice", status := "active",
               callerSocket := none, localStream := none } ∧
      NonTerminal "active" ∧
      (endCall (exInCall "alice" "active")).2 = [.endCall "alice"] :=
  ⟨rfl, by decide, (endCall_effect (exInCall "alice" "active")
    { type := "video", withUser := "alice", status := "active",
      callerSocket := none, localStream := none } rfl (by decide)).2.2.2.2.1 (Or.inr rfl)⟩

/-! ## Disconnect: calls and presence -/

/-- C27, as stated, fails: alice (sock-a) has dialled bob (sock-b) and bob has accepted,
neither of which changes the server state; when sock-a disconnects the server broadcasts
only that alice is offline and sends no call-ended to sock-b, whereas an explicit end-call
from sock-a yields call-ended to sock-b. -/
theorem disconnect_during_call :
    serverOn exThreeOnline "sock-a" exStartCall =
        (exThreeOnline, [⟨.socket "sock-b", .incomingCall "sock-a" "alice" "video" "alice"⟩]) ∧
      serverOn exThreeOnline "sock-b" (.acceptCall "alice") =
        (exThreeOnline, [⟨.socket "sock-a", .callAccepted "sock-b"⟩]) ∧
      (disconnect exEnv exThreeOnline "sock-a").2 =
        [⟨.all, .userStatusChanged "alice" "offline"⟩] ∧
      (serverOn exThreeOnline "sock-a" (.endCall "bob")).2 = [⟨.socket "sock-b", .callEnded⟩] ∧
      (disconnect exEnv exThreeOnline "sock-a").2 ≠
        (serverOn exThreeOnline "sock-a" (.endCall "bob")).2 := by
  refine ⟨by decide, by decide, by decide, by decide, by decide⟩

/-- C27, amended: the server keeps no call session, no call handler changes its state, and
the disconnect handler emits nothing but at most one user-status-changed broadcast with the
status offline; it never emits call-ended. The remaining participant is notified with
call-ended only through an explicit end-call, which the server forwards to the connection
of the user named in it when present. -/
theorem disconnect_no_call_ended (env : Env) (st : ServerState) (h : SocketId) :
    (∀ e ∈ (disconnect env st h).2,
        e.target = .all ∧ ∃ u, e.payload = .userStatusChanged u "offline") ∧
      (∀ e ∈ (disconnect env st h).2, e.payload.event ≠ "call-ended") ∧
      (disconnect env st h).2.length ≤ 1 ∧
      (∀ (socket : SocketId) (ce : ClientEmit), (serverOn st socket ce).1 = st) ∧
      (∀ (socket h2 : SocketId) (toId : UserId), HandlesNonEmpty st.userSocketMap →
        objGet st.userSocketMap toId = some h2 →
        serverOn st socket (.endCall toId) = (st, [⟨.socket h2, .callEnded⟩])) := by
  have hcases : (disconnect env st h).2 = [] ∨
      ∃ u, (disconnect env st h).2 = [⟨.all, .userStatusChanged u "offline"⟩] := by
    unfold disconnect
    split
    · exact Or.inl rfl
    · simp only []
      split
      · exact Or.inl rfl
      · split
        · exact Or.inl rfl
        · exact Or.inr ⟨_, rfl⟩
  refine ⟨?_, ?_, ?_, fun socket ce => serverOn_state st socket ce, ?_⟩
  · intro e he
    rcases hcases with h0 | ⟨u, h1⟩
    · rw [h0] at he
      simp at he
    · rw [h1] at he
      simp at he
      subst he
      exact ⟨rfl, u, rfl⟩
  · intro e he
    rcases hcases with h0 | ⟨u, h1⟩
    · rw [h0] at he
      simp at he
    · rw [h1] at he
      simp at he
      subst he
      simp [Payload.event]
  · rcases hcases with h0 | ⟨u, h1⟩
    · simp [h0]
    · simp [h1]
  · intro socket h2 toId hne hg
    exact (serverOn_forward st socket toId h2 hne hg).2.2

/-- With at most one entry holding the handle, the disconnect handler leaves no entry
holding it. -/
theorem disconnect_clears_single (env : Env) (st : ServerState) (h : SocketId)
    (hone : ∀ e1 ∈ st.userSocketMap, ∀ e2 ∈ st.userSocketMap, e1.2 = h → e2.2 = h → e1 = e2) :
    ∀ e ∈ (disconnect env st h).1.userSocketMap, e.2 ≠ h := by
  cases hf : st.userSocketMap.find? (fun e => e.2 == h) with
  | none =>
    have hmap : (disconnect env st h).1.userSocketMap = st.userSocketMap := by
      simp [disconnect, hf]
    rw [hmap]
    intro e he heq
    have := List.find?_eq_none.mp hf e he
    simp [heq] at this
  | some f =>
    obtain ⟨u, x⟩ := f
    have hmem := List.mem_of_find?_eq_some hf
    have hx : x = h := by simpa using List.find?_some hf
    have hmap : (disconnect env st h).1.userSocketMap = objDelete st.userSocketMap u := by
      unfold disconnect
      rw [hf]
      simp only []
      split
      · rfl
      · split <;> rfl
    rw [hmap]
    intro e he heq
    have he2 : e ∈ st.userSocketMap ∧ e.1 ≠ u := by
      simpa [objDelete, List.mem_filter] using he
    have := hone e he2.1 (u, x) hmem heq hx
    exact he2.2 (by rw [this])

/-- C28 fails when one connection registers two users: connection sock-x sends user-online
for alice and then for bob, so both entries hold sock-x; the disconnect handler for sock-x
deletes the entry of alice, stops at the break, and leaves bob mapped to sock-x. -/
theorem disconnect_leaves_second_entry :
    exSharedHandle.userSocketMap = [("alice", "sock-x"), ("bob", "sock-x")] ∧
      (disconnect exEnv exSharedHandle "sock-x").1.userSocketMap = [("bob", "sock-x")] ∧
      objGet (disconnect exEnv exSharedHandle "sock-x").1.userSocketMap "bob" = some "sock-x" := by
  refine ⟨by decide, by decide, by decide⟩

/-! ## Privacy of the public status -/

theorem maskStatus_id (U : UserId) (u : User) : (maskStatus U u).id = u.id := by
  unfold maskStatus
  split <;> rfl

theorem maskStatus_profile (U : UserId) (u : User) : (maskStatus U u).profile = u.profile := by
  unfold maskStatus
  split <;> rfl

/-- In stores that differ at most in the status and lastSeen of `U`, the lookup of `U`
finds records with the same profile. -/
theorem find_sameExceptStatus (U : UserId) (l1 l2 : List User) (u1 : User)
    (h : l1.map (maskStatus U) = l2.map (maskStatus U))
    (hf : l1.find? (fun u => u.id == U) = some u1) :
    ∃ u2, l2.find? (fun u => u.id == U) = some u2 ∧ u2.profile = u1.profile := by
  have hcomp : ((fun u : User => u.id == U) ∘ maskStatus U) = (fun u : User => u.id == U) := by
    funext u
    simp [maskStatus_id]
  have h1 : (l1.map (maskStatus U)).find? (fun u => u.id == U) = some (maskStatus U u1) := by
    rw [List.find?_map, hcomp, hf]
    rfl
  rw [h, List.find?_map, hcomp] at h1
  cases hf2 : l2.find? (fun u => u.id == U) with
  | none => simp [hf2] at h1
  | some u2 =>
    refine ⟨u2, rfl, ?_⟩
    simp [hf2] at h1
    have := congrArg User.profile h1
    simpa [maskStatus_profile] using this

/-- The chain of tests on a visibility setting amounts to `reveals`. -/
theorem reveals_chain {α : Type} (setting : Option String) (contact : Bool) (a b : α) :
    (if setting == some "public" then a
      else if setting == some "contacts" && contact then a else b) =
      if reveals setting contact then a else b := by
  unfold reveals
  by_cases h1 : setting = some "public"
  · simp [h1]
  · by_cases h2 : setting = some "contacts" <;> cases contact <;> simp [h1, h2]

/-- The expression `o[k]?.includes(x)` throws exactly when the read yields an inherited
member, and otherwise tells whether the list under `k` holds `x`. -/
theorem includesAt_eq (o : JsObject (List UserId)) (k : String) (x : UserId) :
    includesAt o k x =
      if readsInherited o k then none else some ((objList o k).contains x) := by
  unfold includesAt
  rcases objRead_cases o k with ⟨l, hg, hr⟩ | ⟨hg, hi, hr⟩ | ⟨hg, hi, hr⟩
  · rw [hr]
    simp [readsInherited, objList, hg]
  · rw [hr]
    have ht : readsInherited o k = true := by
      simp only [readsInherited, hg, hi]
      rfl
    simp [ht]
  · rw [hr]
    have hf : readsInherited o k = false := by
      simp only [readsInherited, hg, hi]
      rfl
    simp [hf, objList, hg]

/-- Evaluating `isContact` throws exactly when the read under the viewer yields an inherited
member, or the viewer does not list the user and the read under the user yields one. -/
theorem isContact_none_iff (s : Store) (V U : UserId) :
    isContact s V U = none ↔
      readsInherited (readContacts s) V = true ∨
        (U ∉ objList (readContacts s) V ∧ readsInherited (readContacts s) U = true) := by
  unfold isContact
  rw [includesAt_eq, includesAt_eq]
  by_cases hV : readsInherited (readContacts s) V = true
  · simp [hV]
  · have hV2 : readsInherited (readContacts s) V = false := by simpa using hV
    by_cases hm : U ∈ objList (readContacts s) V
    · simp [hV2, hm]
    · by_cases hU : readsInherited (readContacts s) U = true
      · simp [hV2, hm, hU]
      · have hU2 : readsInherited (readContacts s) U = false := by simpa using hU
        simp [hV2, hm, hU2]

theorem apiPublicStatus_other (s : Store) (U V : UserId) (user : User)
    (hU : (readUsers s).find? (fun u => u.id == U) = some user) (hV : V ≠ U) :
    apiPublicStatus s U V =
      match isContact s V U with
      | none => ⟨500, .error "TypeError"⟩
      | some contact => ⟨200, .publicStatus
        (if reveals (visibilityOf user).onlineStatus contact then user.status else "unknown")
        (if reveals (visibilityOf user).lastSeen contact then some user.lastSeen else none)⟩ := by
  have hne : (V == U) = false := by simp [hV]
  unfold apiPublicStatus
  rw [hU]
  simp only [hne, reveals_chain]
  cases isContact s V U <;> rfl

/-- C29, as stated, fails: dana exists, shows her last visit to nobody and her status to
contacts only, and the viewer id "constructor" is not hers and is nobody's contact; the
contact test of the handler throws on the inherited member read under that id, and the
answer is 500 with an error body, not the answer with status unknown and lastSeen null. -/
theorem apiPublicStatus_viewer_inherited :
    (readUsers (exPrivacyStore "online" 7)).find? (fun u => u.id == "dana") =
        some (exDana "online" 7) ∧
      "constructor" ≠ "dana" ∧
      (visibilityOf (exDana "online" 7)).onlineStatus = some "contacts" ∧
      (visibilityOf (exDana "online" 7)).lastSeen = some "private" ∧
      objGet (readContacts (exPrivacyStore "online" 7)) "constructor" = none ∧
      isContact (exPrivacyStore "online" 7) "constructor" "dana" = none ∧
      apiPublicStatus (exPrivacyStore "online" 7) "dana" "constructor" =
        ⟨500, .error "TypeError"⟩ ∧
      apiPublicStatus (exPrivacyStore "online" 7) "dana" "constructor" ≠
        ⟨200, .publicStatus "unknown" none⟩ := by
  refine ⟨by decide, by decide, by decide, by decide, by decide, by decide, by decide, by decide⟩

/-- C29, amended: for an existing user U and a viewer V other than U, when the contact test
of the handler evaluates, the answer of GET /api/user/U/public-status carries U's status
exactly when U's visibility.onlineStatus is public, or is contacts with V and U contacts,
and the text unknown otherwise; it carries U's lastSeen under the same condition on
visibility.lastSeen, and null otherwise. When a value is not revealed, the corresponding
field of the answer is the same in any store that differs at most in U's status and
lastSeen; when neither is revealed the whole answer is the same. The contact test throws
exactly when a read of the contacts object that it makes yields an inherited member; the
answer is then 500 with an error body, in every store that differs at most in U's status
and lastSeen. -/
theorem apiPublicStatus_privacy (s : Store) (U V : UserId) (user : User)
    (hU : (readUsers s).find? (fun u => u.id == U) = some user) (hV : V ≠ U) :
    (∀ c, isContact s V U = some c →
        apiPublicStatus s U V = ⟨200, .publicStatus
          (if reveals (visibilityOf user).onlineStatus c then user.status else "unknown")
          (if reveals (visibilityOf user).lastSeen c then some user.lastSeen else none)⟩) ∧
      (∀ s2 c, SameExceptStatus U s s2 → isContact s V U = some c →
        reveals (visibilityOf user).onlineStatus c = false →
        ∃ l1 l2, apiPublicStatus s U V = ⟨200, .publicStatus "unknown" l1⟩ ∧
          apiPublicStatus s2 U V = ⟨200, .publicStatus "unknown" l2⟩) ∧
      (∀ s2 c, SameExceptStatus U s s2 → isContact s V U = some c →
        reveals (visibilityOf user).lastSeen c = false →
        ∃ t1 t2, apiPublicStatus s U V = ⟨200, .publicStatus t1 none⟩ ∧
          apiPublicStatus s2 U V = ⟨200, .publicStatus t2 none⟩) ∧
      (∀ s2 c, SameExceptStatus U s s2 → isContact s V U = some c →
        reveals (visibilityOf user).onlineStatus c = false →
        reveals (visibilityOf user).lastSeen c = false →
        apiPublicStatus s2 U V = apiPublicStatus s U V) ∧
      (isContact s V U = none ↔
        readsInherited (readContacts s) V = true ∨
          (U ∉ objList (readContacts s) V ∧ readsInherited (readContacts s) U = true)) ∧
      (isContact s V U = none → apiPublicStatus s U V = ⟨500, .error "TypeError"⟩) ∧
      (∀ s2, SameExceptStatus U s s2 → isContact s V U = none →
        apiPublicStatus s2 U V = apiPublicStatus s U V) := by
  have h1 := apiPublicStatus_other s U V user hU hV
  have hother : ∀ s2, SameExceptStatus U s s2 → ∃ user2,
      visibilityOf user2 = visibilityOf user ∧ isContact s2 V U = isContact s V U ∧
      apiPublicStatus s2 U V =
        match isContact s V U with
        | none => ⟨500, .error "TypeError"⟩
        | some contact => ⟨200, .publicStatus
          (if reveals (visibilityOf user).onlineStatus contact then user2.status else "unknown")
          (if reveals (visibilityOf user).lastSeen contact then some user2.lastSeen
            else none)⟩ := by
    intro s2 hs
    obtain ⟨u2, hf2, hp⟩ := find_sameExceptStatus U _ _ user hs.2 hU
    have hvis : visibilityOf u2 = visibilityOf user := by simp [visibilityOf, hp]
    have hcon : isContact s2 V U = isContact s V U := by simp [isContact, hs.1]
    refine ⟨u2, hvis, hcon, ?_⟩
    rw [apiPublicStatus_other s2 U V u2 hf2 hV, hvis, hcon]
  refine ⟨?_, ?_, ?_, ?_, isContact_none_iff s V U, ?_, ?_⟩
  · intro c hc
    rw [h1, hc]
  · intro s2 c hs hc hr
    obtain ⟨u2, _, _, h2⟩ := hother s2 hs
    rw [h1, h2, hc]
    simp only [hr]
    exact ⟨_, _, rfl, rfl⟩
  · intro s2 c hs hc hr
    obtain ⟨u2, _, _, h2⟩ := hother s2 hs
    rw [h1, h2, hc]
    simp only [hr]
    exact ⟨_, _, rfl, rfl⟩
  · intro s2 c hs hc hr1 hr2
    obtain ⟨u2, _, _, h2⟩ := hother s2 hs
    rw [h1, h2, hc]
    simp only [hr1, hr2]
    rfl
  · intro hc
    rw [h1, hc]
  · intro s2 hs hc
    obtain ⟨u2, _, _, h2⟩ := hother s2 hs
    rw [h1, h2, hc]

theorem apiPublicStatus_privacy_witness :
    (readUsers (exPrivacyStore "online" 7)).find? (fun u => u.id == "dana") =
        some (exDana "online" 7) ∧
      "alice" ≠ "dana" ∧
      SameExceptStatus "dana" (exPrivacyStore "online" 7) (exPrivacyStore "offline" 9) ∧
      isContact (exPrivacyStore "online" 7) "alice" "dana" = some false ∧
      apiPublicStatus (exPrivacyStore "online" 7) "dana" "alice" =
        ⟨200, .publicStatus "unknown" none⟩ ∧
      apiPublicStatus (exPrivacyStore "offline" 9) "dana" "alice" =
        apiPublicStatus (exPrivacyStore "online" 7) "dana" "alice" :=
  ⟨by decide, by decide, by decide, by decide,
   (apiPublicStatus_privacy (exPrivacyStore "online" 7) "dana" "alice" (exDana "online" 7)
      (by decide) (by decide)).1 false (by decide),
   (apiPublicStatus_privacy (exPrivacyStore "online" 7) "dana" "alice" (exDana "online" 7)
      (by decide) (by decide)).2.2.2.1 (exPrivacyStore "offline" 9) false (by decide) (by decide)
      (by decide) (by decide)⟩

/-! ## Upload: sanitised file name -/

/-- C30: the sanitised name has the length of the original name; at each position it holds
the original code unit when that is in a-z, A-Z, 0-9 or the dot, and the hyphen otherwise;
so it holds neither a slash nor a backslash; and the stored name is the uuid, a hyphen, and
the sanitised name. -/
theorem safeName_spec (uuid s : JsString) :
    (safeName s).length = s.length ∧
      (∀ (i c : Nat), s[i]? = some c → isSafeUnit c = true → (safeName s)[i]? = some c) ∧
      (∀ (i c : Nat), s[i]? = some c → isSafeUnit c = false → (safeName s)[i]? = some 45) ∧
      (∀ c ∈ safeName s, isSafeUnit c = true ∨ c = 45) ∧
      (∀ c ∈ safeName s, c ≠ 47 ∧ c ≠ 92) ∧
      uniqueName uuid s = uuid ++ [45] ++ safeName s ∧
      (uniqueName uuid s).length = uuid.length + 1 + s.length := by
  have hcls : ∀ c ∈ safeName s, isSafeUnit c = true ∨ c = 45 := by
    intro c hc
    obtain ⟨a, _, ha⟩ := List.mem_map.mp hc
    by_cases h : isSafeUnit a = true
    · left
      simp [h] at ha
      rw [← ha]
      exact h
    · right
      simp [h] at ha
      exact ha.symm
  refine ⟨by simp [safeName], ?_, ?_, hcls, ?_, rfl, by simp [uniqueName, safeName]; omega⟩
  · intro i c hi hc
    simp [safeName, List.getElem?_map, hi, hc]
  · intro i c hi hc
    simp [safeName, List.getElem?_map, hi, hc]
  · intro c hc
    rcases hcls c hc with h | h
    · constructor
      · rintro rfl
        simp [isSafeUnit] at h
      · rintro rfl
        simp [isSafeUnit] at h
    · subst h
      exact ⟨by decide, by decide⟩
